import Mathlib

/-!
# Verification model of the dbX data-movement service

Shallow embedding of the two FastAPI applications in this repository
(`src/app.py` and `src/python/app.py` together with
`src/python/database.py`, `src/python/db_operations.py`,
`src/python/models.py`).

Modelling conventions:

* An Arrow table is a schema (list of fields) plus a list of rows;
  `num_rows` is the length of the row list and `num_columns` the length
  of the schema, exactly as `pyarrow` reports them.
* A database is an association list from table names to Arrow tables.
* Third-party calls that touch the outside world (`cur.execute` +
  `fetch_arrow_table`, `adbc_ingest`, `connectorx.read_sql`, dataset and
  file reads and writes) are modelled with their documented semantics on
  the modelled state (`SELECT * FROM t` returns the stored table,
  `adbc_ingest` in `create_append` mode creates or appends); in addition
  every such call site consults a fault oracle so that it can fail with
  an arbitrary message, reflecting that any library call may raise.
* Python exceptions are the `Exc` type; `strExc` is Python's `str(e)`
  (for a FastAPI/Starlette `HTTPException` this is `"status: detail"`).
  An exception that escapes a handler un-caught is rendered by the
  framework as a generic `500 Internal Server Error`; an
  `HTTPException` raised by the handler becomes a response with its
  status code and detail.
* Handlers run in a monad `M σ` threading the world state `σ` and a
  trace of externally visible events; the state at the moment of a
  failure is kept, so partial effects of a failed request are visible.
* Wall-clock quantities (`start_time`, `end_time`, `time_taken`) are
  outside the embedding; response envelopes are modelled by their
  `status` and `metadata` fields.
* String literals follow the source; quote characters inside Python
  message strings are omitted.
-/

/-- A JSON value, used for the `metadata` dictionaries the service puts
in its response envelopes. -/
inductive JVal where
  | str (s : String)
  | num (n : Nat)
  | bool (b : Bool)
  | arr (xs : List JVal)
  | obj (kvs : List (String × JVal))

/-- Look up a key in a JSON object; `none` on non-objects and missing
keys. -/
def JVal.lookup : JVal → String → Option JVal
  | .obj kvs, k => kvs.lookup k
  | _, _ => none

/-- One field of an Arrow schema: its name, the string form of its type
(`str(field.type)` in `pyarrow`), and its nullability flag. -/
structure ArrowField where
  name : String
  ftype : String
  nullable : Bool
deriving DecidableEq

/-- An Arrow table: a schema and a list of rows (cell values abstracted
as strings). -/
structure ArrowTable where
  schema : List ArrowField
  rows : List (List String)
deriving DecidableEq

/-- `table.num_rows` in pyarrow. -/
def ArrowTable.num_rows (t : ArrowTable) : Nat := t.rows.length

/-- A database: an association list from table names to tables. -/
def DB := List (String × ArrowTable)

instance : DecidableEq DB := by
  unfold DB
  infer_instance

/-- Look up a table by name. -/
def dbLookup (db : DB) (name : String) : Option ArrowTable :=
  List.lookup name db

/-- Replace the table stored under `name` (used by the append half of
`adbc_ingest`). -/
def dbUpdate (db : DB) (name : String) (t : ArrowTable) : DB :=
  match db with
  | [] => []
  | (n, u) :: rest =>
      if n = name then (n, t) :: rest else (n, u) :: dbUpdate rest name t

/-- `adbc_ingest(table_name, data, mode="create_append")`: create the
table when it does not exist, append to it when it does (a schema
mismatch on append is a driver error). -/
def adbcIngest (db : DB) (name : String) (t : ArrowTable) :
    Except String DB :=
  match dbLookup db name with
  | none => .ok ((name, t) :: db)
  | some existing =>
      if existing.schema = t.schema then
        .ok (dbUpdate db name
          { schema := existing.schema, rows := existing.rows ++ t.rows })
      else
        .error ("schema mismatch ingesting into " ++ name)

/-- A Python exception, as far as the handlers distinguish them. -/
inductive Exc where
  | httpExc (status : Nat) (detail : String)
  | valueError (msg : String)
  | nameError (msg : String)
  | libError (msg : String)
deriving DecidableEq

/-- Python's `str(e)`.  Starlette's `HTTPException.__str__` renders
`"status_code: detail"`; `ValueError`, `NameError` and library
exceptions render their message. -/
def strExc : Exc → String
  | .httpExc status detail => toString status ++ ": " ++ detail
  | .valueError msg => msg
  | .nameError msg => msg
  | .libError msg => msg

/-- An externally visible effect performed by a handler.  The database
label is the connection the effect went to (`"postgres"`/`"sqlite"` in
`src/app.py`, `"source"`/`"target"` in `src/python`). -/
inductive Event where
  | fileWrite (path : String) (format : String) (t : ArrowTable)
  | datasetWrite (path : String) (format : String) (t : ArrowTable)
  | ingest (db : String) (table : String) (t : ArrowTable)
  | commit (db : String)
  | rollback (db : String)
deriving DecidableEq

/-- Handler monad: threads a world `σ` and an event trace, and carries a
Python exception on failure.  The state reached before the failure is
kept, so partial effects of failed requests stay observable. -/
def M (σ : Type) (α : Type) : Type :=
  σ × List Event → (σ × List Event) × Except Exc α

instance : Monad (M σ) where
  pure a := fun s => (s, .ok a)
  bind x f := fun s =>
    match x s with
    | (s', .ok a) => f a s'
    | (s', .error e) => (s', .error e)

/-- `raise e`. -/
def throwE (e : Exc) : M σ α := fun s => (s, .error e)

/-- Read the world. -/
def getW : M σ σ := fun s => (s, .ok s.1)

/-- Record an externally visible event. -/
def emit (ev : Event) : M σ Unit := fun s => ((s.1, s.2 ++ [ev]), .ok ())

/-- Lift a pure `Except` computation (e.g. `get_connection`). -/
def liftE (x : Except Exc α) : M σ α := fun s => (s, x)

/-- `try body except Exception as e: handler e`. -/
def tryCatchE (body : M σ α) (handler : Exc → M σ α) : M σ α := fun s =>
  match body s with
  | (s', .ok a) => (s', .ok a)
  | (s', .error e) => handler e s'

/-- What the HTTP client observes for one request. -/
inductive ClientOutcome (α : Type) where
  | ok (resp : α)
  | err (status : Nat) (detail : String)
deriving DecidableEq

/-- Run a handler on an initial world: a raised `HTTPException` becomes
a response with its status and detail; any other exception escaping the
handler is rendered by the framework as a generic 500. -/
def runHandler (m : M σ α) (w : σ) : σ × List Event × ClientOutcome α :=
  match m (w, []) with
  | ((w', evs), .ok a) => (w', evs, .ok a)
  | ((w', evs), .error (.httpExc status detail)) =>
      (w', evs, .err status detail)
  | ((w', evs), .error _) => (w', evs, .err 500 "Internal Server Error")

/-- The standard outer handler shape shared by every endpoint:
`try: body except Exception as e: raise HTTPException(status_code=500,
detail=str(e))`. -/
def endpoint (body : M σ α) : M σ α :=
  tryCatchE body (fun e => throwE (.httpExc 500 (strExc e)))

/-- Python truthiness of an `Optional[str]`: `None` and `""` are
falsy. -/
def truthyStr : Option String → Bool
  | none => false
  | some s => s ≠ ""

/-- Python truthiness of an `Optional[List[str]]`: `None` and `[]` are
falsy. -/
def truthyList : Option (List String) → Bool
  | none => false
  | some l => l ≠ []

/-- `os.path.join(base_dir, p)` (the relative-path case used by the
service). -/
def pathJoin (base p : String) : String := base ++ "/" ++ p

/-- Python's `str.upper()` for the ASCII tags used by the service
(defined by mapping `Char.toUpper` so that it evaluates by
reduction). -/
def strUpper (s : String) : String := String.mk (s.data.map Char.toUpper)

/-- The fault oracle: one slot per kind of third-party call site, giving
the message of the exception the call raises, or `none` when the call
follows its modelled semantics. -/
structure Faults where
  fRead : Option String
  fExec : Option String
  fIngest : Option String
  fCommit : Option String
  fWrite : Option String
deriving DecidableEq

/-- The oracle under which every library call succeeds. -/
def noFaults : Faults :=
  { fRead := none, fExec := none, fIngest := none, fCommit := none,
    fWrite := none }

/-- A stored file or partitioned dataset directory: the format it is in
and the table it holds. -/
structure FileEntry where
  format : String
  table : ArrowTable
deriving DecidableEq

/-- The local filesystem under `base_dir`: paths to entries. -/
def FS := List (String × FileEntry)

instance : DecidableEq FS := by
  unfold FS
  infer_instance

/-- Look up a filesystem path. -/
def fsLookup (fs : FS) (path : String) : Option FileEntry :=
  List.lookup path fs

/-- Store (create or overwrite) a filesystem entry. -/
def fsStore (fs : FS) (path : String) (e : FileEntry) : FS :=
  (path, e) :: fs

/-! ## `src/app.py` -/

namespace App

/-- The two configured connections of `src/app.py`: `pg_conn` and
`sqlite_conn`. -/
inductive DbId where
  | postgres
  | sqlite
deriving DecidableEq

/-- The identifier string naming a connection. -/
def DbId.label : DbId → String
  | .postgres => "postgres"
  | .sqlite => "sqlite"

/-- The world `src/app.py` acts on: the PostgreSQL database, the SQLite
database, the local filesystem under `base_dir`, and the configured
`base_dir` itself. -/
structure World where
  pg : DB
  sq : DB
  fs : FS
  baseDir : String
deriving DecidableEq

/-- The database a connection talks to. -/
def World.getDB : World → DbId → DB
  | w, .postgres => w.pg
  | w, .sqlite => w.sq

/-- Replace the database a connection talks to. -/
def World.setDB : World → DbId → DB → World
  | w, .postgres, db => { w with pg := db }
  | w, .sqlite, db => { w with sq := db }

/-- `LoadDataRequest` (pydantic model in `src/app.py`). -/
structure LoadDataRequest where
  table_name : String
  local_path : Option String
  directory : Option String
  file_format : String
  partitioning : Option (List String)
  database : String

/-- `ExportDataRequest` (pydantic model in `src/app.py`). -/
structure ExportDataRequest where
  table_name : String
  export_path : String
  file_format : String
  partitioning : Option (List String)
  database : String

/-- `CopyTableRequest` (pydantic model in `src/app.py`). -/
structure CopyTableRequest where
  source_table : String
  target_table : String
  database : String

/-- A success envelope, modelled by its `status` and `metadata` fields
(`time_taken` is a wall-clock measurement outside the embedding;
`GenerateDataResponse` has no metadata, hence the `Option`). -/
structure Resp where
  status : String
  metadata : Option JVal

/-- Handler monad over the `src/app.py` world. -/
abbrev AM (α : Type) := M World α

/-- `get_connection` from `src/app.py`: `"postgres"` returns `pg_conn`,
`"sqlite"` returns `sqlite_conn`, anything else raises
`ValueError("Unsupported database")`. -/
def get_connection (database : String) : Except Exc DbId :=
  if database = "postgres" then .ok .postgres
  else if database = "sqlite" then .ok .sqlite
  else .error (.valueError "Unsupported database")

/-- `generate_metadata` from `src/app.py` (identical to the one in
`src/python/db_operations.py`): the dictionary
`num_rows / num_columns / schema` built from a table. -/
def generate_metadata (t : ArrowTable) : JVal :=
  .obj [("num_rows", .num t.num_rows),
        ("num_columns", .num t.schema.length),
        ("schema", .obj (t.schema.map fun f => (f.name, .str f.ftype)))]

/-- `ds.dataset(path, format=...)` followed by `.to_table()`: read the
entry stored at `path`; the entry must exist and be in the requested
format.  (The `partitioning` argument only shapes how the library lists
fragment files; it does not change which table the path holds, so the
model does not consult it.) -/
def dsDatasetToTable (f : Faults) (path : String) (format : String) :
    AM ArrowTable := fun s =>
  match f.fRead with
  | some msg => (s, .error (.libError msg))
  | none =>
      match fsLookup s.1.fs path with
      | some entry =>
          if entry.format = format then (s, .ok entry.table)
          else (s, .error (.libError ("format mismatch at " ++ path)))
      | none => (s, .error (.libError ("no such path: " ++ path)))

/-- `cur.execute(f"SELECT * FROM {table}")` followed by
`cur.fetch_arrow_table()`: the stored table, or a driver error when it
does not exist. -/
def fetch_arrow_table (f : Faults) (conn : DbId) (table : String) :
    AM ArrowTable := fun s =>
  match f.fExec with
  | some msg => (s, .error (.libError msg))
  | none =>
      match dbLookup (s.1.getDB conn) table with
      | some t => (s, .ok t)
      | none => (s, .error (.libError ("no such table: " ++ table)))

/-- `connectorx.read_sql(uri, f"SELECT * FROM {table}", ...)` where the
URI was built for connection `conn`: same stored table, read over a
different client.  (The model takes ConnectorX to return the stored
table exactly, like the ADBC fetch.) -/
def cx_read_sql (f : Faults) (conn : DbId) (table : String) :
    AM ArrowTable := fun s =>
  match f.fRead with
  | some msg => (s, .error (.libError msg))
  | none =>
      match dbLookup (s.1.getDB conn) table with
      | some t => (s, .ok t)
      | none => (s, .error (.libError ("no such table: " ++ table)))

/-- `pgeon.copy_query(pg_uri, f"SELECT * FROM {table}")`: always reads
from the PostgreSQL connection. -/
def pgeon_copy_query (f : Faults) (table : String) : AM ArrowTable :=
  fun s =>
  match f.fRead with
  | some msg => (s, .error (.libError msg))
  | none =>
      match dbLookup s.1.pg table with
      | some t => (s, .ok t)
      | none => (s, .error (.libError ("no such table: " ++ table)))

/-- `cur.adbc_ingest(name, data, mode="create_append")` on connection
`conn`: create-or-append in the modelled database, recorded as an
`ingest` event. -/
def adbc_ingest (f : Faults) (conn : DbId) (name : String)
    (t : ArrowTable) : AM Unit := fun s =>
  match f.fIngest with
  | some msg => (s, .error (.libError msg))
  | none =>
      match adbcIngest (s.1.getDB conn) name t with
      | .ok db' =>
          ((s.1.setDB conn db', s.2 ++ [.ingest conn.label name t]), .ok ())
      | .error msg => (s, .error (.libError msg))

/-- `conn.commit()`. -/
def commit (f : Faults) (conn : DbId) : AM Unit := fun s =>
  match f.fCommit with
  | some msg => (s, .error (.libError msg))
  | none => ((s.1, s.2 ++ [.commit conn.label]), .ok ())

/-- `ingest_to_database(conn, table_name, reader)` from `src/app.py`:
ingest under a cursor, then commit. -/
def ingest_to_database (f : Faults) (conn : DbId) (table_name : String)
    (t : ArrowTable) : AM Unit := do
  adbc_ingest f conn table_name t
  commit f conn

/-- `pq.write_table` / `feather.write_feather` / `pv.write_csv`: store a
single file at `path`. -/
def write_file (f : Faults) (path format : String) (t : ArrowTable) :
    AM Unit := fun s =>
  match f.fWrite with
  | some msg => (s, .error (.libError msg))
  | none =>
      (({ s.1 with fs := fsStore s.1.fs path { format := format, table := t } },
        s.2 ++ [.fileWrite path format t]), .ok ())

/-- `ds.write_dataset(table, path, format=..., partitioning=...)`: store
a partitioned dataset rooted at `path`. -/
def write_dataset (f : Faults) (path format : String) (t : ArrowTable) :
    AM Unit := fun s =>
  match f.fWrite with
  | some msg => (s, .error (.libError msg))
  | none =>
      (({ s.1 with fs := fsStore s.1.fs path { format := format, table := t } },
        s.2 ++ [.datasetWrite path format t]), .ok ())

/-- Body of the `/load-data/` handler in `src/app.py` (inside the
`try`).  The `directory` branch is tested first; `local_path` is only
consulted when `directory` is falsy.  (`os.makedirs` is not called here;
`dataset.to_table()` is folded into the dataset read.) -/
def load_data_body (f : Faults) (p : LoadDataRequest) : AM Resp := do
  let w ← getW
  let dataset : Option ArrowTable ←
    if truthyStr p.directory then do
      let t ← dsDatasetToTable f (pathJoin w.baseDir (p.directory.getD ""))
        p.file_format
      pure (some t)
    else if truthyStr p.local_path then do
      let t ← dsDatasetToTable f (pathJoin w.baseDir (p.local_path.getD ""))
        p.file_format
      pure (some t)
    else pure none
  match dataset with
  | none =>
      throwE (.httpExc 400 "Either local_path or directory must be provided.")
  | some table => do
      let conn ← liftE (get_connection p.database)
      ingest_to_database f conn p.table_name table
      pure { status := strUpper p.file_format ++ " data loaded into " ++
               strUpper p.database,
             metadata := some (generate_metadata table) }

/-- `/load-data/` in `src/app.py`: the body wrapped by
`except Exception as e: raise HTTPException(500, str(e))`. -/
def load_data (f : Faults) (p : LoadDataRequest) : AM Resp :=
  endpoint (load_data_body f p)

/-- Body of the `/export-data/` handler in `src/app.py`.  Note the
write step: with truthy `partitioning` any format goes through
`ds.write_dataset`; without it only `"parquet"` and `"feather"` have a
branch, every other format (including `"csv"`) falls through without
writing anything. -/
def export_data_body (f : Faults) (p : ExportDataRequest) : AM Resp := do
  let w ← getW
  let export_path := pathJoin w.baseDir p.export_path
  let conn ← liftE (get_connection p.database)
  let table ← fetch_arrow_table f conn p.table_name
  let _u ←
    ((if truthyList p.partitioning then
      write_dataset f export_path p.file_format table
    else
      if p.file_format = "parquet" then
        write_file f export_path "parquet" table
      else if p.file_format = "feather" then
        write_file f export_path "feather" table
      else
        pure ()) : AM Unit)
  pure { status := "Table exported to " ++ strUpper p.file_format ++
           " from " ++ strUpper p.database,
         metadata := some (generate_metadata table) }

/-- `/export-data/` in `src/app.py`. -/
def export_data (f : Faults) (p : ExportDataRequest) : AM Resp :=
  endpoint (export_data_body f p)

/-- Body of the `/export-connectorx/` handler in `src/app.py`: resolve a
URI (400 for an unknown database string), read via ConnectorX, then
write feather or parquet (partitioned or single file), with a 400 for
any other format. -/
def export_connectorx_body (f : Faults) (p : ExportDataRequest) :
    AM Resp := do
  let w ← getW
  let export_path := pathJoin w.baseDir p.export_path
  let conn ←
    if p.database = "postgres" then pure DbId.postgres
    else if p.database = "sqlite" then pure DbId.sqlite
    else throwE (.httpExc 400 "Unsupported database")
  let table ← cx_read_sql f conn p.table_name
  let _u ←
    ((if p.file_format = "feather" then
      if truthyList p.partitioning then
        write_dataset f export_path "feather" table
      else
        write_file f export_path "feather" table
    else if p.file_format = "parquet" then
      if truthyList p.partitioning then
        write_dataset f export_path "parquet" table
      else
        write_file f export_path "parquet" table
    else
      throwE (.httpExc 400 "Unsupported file format")) : AM Unit)
  pure { status := "Table exported to " ++ strUpper p.file_format ++
           " from " ++ strUpper p.database ++ " using ConnectorX",
         metadata := some (generate_metadata table) }

/-- `/export-connectorx/` in `src/app.py`. -/
def export_connectorx (f : Faults) (p : ExportDataRequest) : AM Resp :=
  endpoint (export_connectorx_body f p)

/-- Steps of `/direct-load/` in `src/app.py` after `conn` is bound:
fetch the whole source table over the ADBC cursor, `adbc_ingest` it
into the target table in `create_append` mode, commit. -/
def copy_table_body (f : Faults) (conn : DbId) (data : CopyTableRequest) :
    AM Resp := do
  let table ← fetch_arrow_table f conn data.source_table
  adbc_ingest f conn data.target_table table
  commit f conn
  pure { status := "Table copied successfully",
         metadata := some (generate_metadata table) }

/-- `/direct-load/` in `src/app.py`.  Its `except` branch runs
`conn.rollback()` before re-raising as a 500.  `get_connection` is the
only fallible statement before `conn` is bound: when it raises, the
`except` branch's `conn.rollback()` itself raises `NameError`, which
escapes the handler un-caught; when `conn` is bound, the `except`
branch rolls back and raises `HTTPException(500, str(e))`. -/
def copy_table (f : Faults) (data : CopyTableRequest) : AM Resp :=
  match get_connection data.database with
  | .error _ =>
      throwE (.nameError
        "cannot access local variable conn where it is not associated with a value")
  | .ok conn =>
      tryCatchE (copy_table_body f conn data)
        (fun e => do
          emit (.rollback conn.label)
          throwE (.httpExc 500 (strExc e)))

/-- Body of the `/copy-tablex/` handler in `src/app.py`: resolve the
source URI from the same `database` field (400 for an unknown string),
fetch the whole source table via `connectorx.read_sql`, then ingest it
through `ingest_to_database` on the connection `get_connection` returns
for that same `database`. -/
def copy_tablex_body (f : Faults) (data : CopyTableRequest) : AM Resp := do
  let srcConn ←
    if data.database = "postgres" then pure DbId.postgres
    else if data.database = "sqlite" then pure DbId.sqlite
    else throwE (.httpExc 400 "Unsupported database")
  let table ← cx_read_sql f srcConn data.source_table
  let conn ← liftE (get_connection data.database)
  ingest_to_database f conn data.target_table table
  pure { status := "Table copied successfully using ConnectorX",
         metadata := some (generate_metadata table) }

/-- `/copy-tablex/` in `src/app.py`. -/
def copy_tablex (f : Faults) (data : CopyTableRequest) : AM Resp :=
  endpoint (copy_tablex_body f data)

/-- Body of the `/export-pgeon/` handler in `src/app.py`: read via
`pgeon.copy_query` against the PostgreSQL URI, write parquet (400 for
any other format). -/
def export_pgeon_body (f : Faults) (p : ExportDataRequest) : AM Resp := do
  let w ← getW
  let export_path := pathJoin w.baseDir p.export_path
  let table ← pgeon_copy_query f p.table_name
  let _u ←
    ((if p.file_format = "parquet" then
      write_file f export_path "parquet" table
    else
      throwE (.httpExc 400 "Unsupported file format")) : AM Unit)
  pure { status := "Table exported to " ++ strUpper p.file_format ++
           " using pgeon",
         metadata := some (generate_metadata table) }

/-- `/export-pgeon/` in `src/app.py`. -/
def export_pgeon (f : Faults) (p : ExportDataRequest) : AM Resp :=
  endpoint (export_pgeon_body f p)

/-- The fixed demo table `/generate-test-data/` builds in memory. -/
def test_table : ArrowTable :=
  { schema := [{ name := "ints", ftype := "int64", nullable := true },
               { name := "strs", ftype := "string", nullable := true }],
    rows := [["1", "foo"], ["1", "bar"], ["2", "baz"]] }

/-- Body of the `/generate-test-data/` handler in `src/app.py`: write
the demo table as three single files and three partitioned datasets
under `base_dir/test_data`. -/
def generate_test_data_body (f : Faults) : AM Resp := do
  let w ← getW
  let dir := pathJoin w.baseDir "test_data"
  write_file f (pathJoin dir "example.csv") "csv" test_table
  write_file f (pathJoin dir "example.arrow") "feather" test_table
  write_file f (pathJoin dir "example.parquet") "parquet" test_table
  write_dataset f (pathJoin dir "csv_dataset") "csv" test_table
  write_dataset f (pathJoin dir "ipc_dataset") "feather" test_table
  write_dataset f (pathJoin dir "parquet_dataset") "parquet" test_table
  pure { status := "Test data generated successfully", metadata := none }

/-- `/generate-test-data/` in `src/app.py`. -/
def generate_test_data (f : Faults) : AM Resp :=
  endpoint (generate_test_data_body f)

/-- The field names of the `LoadDataRequest` pydantic model in
`src/app.py`, in declaration order. -/
def loadDataRequestFields : List String :=
  ["table_name", "local_path", "directory", "file_format",
   "partitioning", "database"]

/-- The field names of the `ExportDataRequest` pydantic model in
`src/app.py`. -/
def exportDataRequestFields : List String :=
  ["table_name", "export_path", "file_format", "partitioning", "database"]

/-- The field names of the `CopyTableRequest` pydantic model in
`src/app.py`. -/
def copyTableRequestFields : List String :=
  ["source_table", "target_table", "database"]

end App

/-! ## `src/python` (app.py, database.py, db_operations.py, models.py) -/

namespace Python

/-- The two configured connections of `src/python/database.py`:
`db_manager.source_conn` and `db_manager.target_conn`. -/
inductive Role where
  | source
  | target
deriving DecidableEq

/-- The role string naming a connection. -/
def Role.label : Role → String
  | .source => "source"
  | .target => "target"

/-- The world the `src/python` app acts on: the configured source and
target databases, the local filesystem under `base_dir`, the configured
`base_dir`, and the configured `type` entries
(`config[database][source][type]`, `config[database][target][type]`)
that `/export-connectorx/` and `/copy-tablex/` branch on. -/
structure World where
  sourceDB : DB
  targetDB : DB
  fs : FS
  baseDir : String
  sourceType : String
  targetType : String
deriving DecidableEq

/-- The database a role resolves to. -/
def World.getDB : World → Role → DB
  | w, .source => w.sourceDB
  | w, .target => w.targetDB

/-- Replace the database a role resolves to. -/
def World.setDB : World → Role → DB → World
  | w, .source, db => { w with sourceDB := db }
  | w, .target, db => { w with targetDB := db }

/-- `LoadDataRequest` from `src/python/models.py`. -/
structure LoadDataRequest where
  table_name : String
  local_path : Option String
  directory : Option String
  file_format : String
  partitioning : Option (List String)
  database_role : String

/-- `ExportDataRequest` from `src/python/models.py`. -/
structure ExportDataRequest where
  table_name : String
  export_path : String
  file_format : String
  partitioning : Option (List String)
  database_role : String

/-- `CopyTableRequest` from `src/python/models.py`: only the two table
names — unlike its `src/app.py` counterpart it has no database field. -/
structure CopyTableRequest where
  source_table : String
  target_table : String

/-- A success envelope of the `src/python` app, modelled by `status`
and `metadata`. -/
structure Resp where
  status : String
  metadata : Option JVal

/-- Handler monad over the `src/python` world. -/
abbrev PM (α : Type) := M World α

/-- `DatabaseConnectionManager.get_connection` from
`src/python/database.py`: `"source"` returns the source connection,
`"target"` the target connection, anything else raises
`ValueError("Invalid database role. Use source or target.")`
(quotes around the role names omitted). -/
def get_connection (db_role : String) : Except Exc Role :=
  if db_role = "source" then .ok .source
  else if db_role = "target" then .ok .target
  else .error (.valueError "Invalid database role. Use source or target.")

/-- `generate_metadata` as defined in `src/python/app.py` (the one the
handlers of that app actually call): a `fields` list of
name/type/nullable records built from a schema.  Unlike the identically
named function in `src/python/db_operations.py` it carries no row or
column counts. -/
def generate_metadata (schema : List ArrowField) : JVal :=
  .obj [("fields", .arr (schema.map fun fd =>
    .obj [("name", .str fd.name), ("type", .str fd.ftype),
          ("nullable", .bool fd.nullable)]))]

/-- `generate_metadata` as defined in `src/python/db_operations.py`:
identical to the `src/app.py` version (`num_rows` / `num_columns` /
`schema`).  Not imported by `src/python/app.py`. -/
def db_operations_generate_metadata (t : ArrowTable) : JVal :=
  .obj [("num_rows", .num t.num_rows),
        ("num_columns", .num t.schema.length),
        ("schema", .obj (t.schema.map fun f => (f.name, .str f.ftype)))]

/-- `pq.ParquetFile(path)`: open a single parquet file (its schema and
contents). -/
def parquet_file (f : Faults) (path : String) : PM FileEntry := fun s =>
  match f.fRead with
  | some msg => (s, .error (.libError msg))
  | none =>
      match fsLookup s.1.fs path with
      | some entry =>
          if entry.format = "parquet" then (s, .ok entry)
          else (s, .error (.libError ("not a parquet file: " ++ path)))
      | none => (s, .error (.libError ("no such path: " ++ path)))

/-- `ds.dataset(path, format="parquet", partitioning=...)`: open a
parquet dataset directory.  (As in the `src/app.py` model, the
`partitioning` argument does not change which table the path holds.) -/
def ds_dataset_parquet (f : Faults) (path : String) : PM FileEntry :=
  fun s =>
  match f.fRead with
  | some msg => (s, .error (.libError msg))
  | none =>
      match fsLookup s.1.fs path with
      | some entry =>
          if entry.format = "parquet" then (s, .ok entry)
          else (s, .error (.libError ("format mismatch at " ++ path)))
      | none => (s, .error (.libError ("no such path: " ++ path)))

/-- `cur.execute(f"SELECT * FROM {table}")` +
`cur.fetch_arrow_table()` on the connection for `role`. -/
def fetch_arrow_table (f : Faults) (role : Role) (table : String) :
    PM ArrowTable := fun s =>
  match f.fExec with
  | some msg => (s, .error (.libError msg))
  | none =>
      match dbLookup (s.1.getDB role) table with
      | some t => (s, .ok t)
      | none => (s, .error (.libError ("no such table: " ++ table)))

/-- `connectorx.read_sql` against the URI built for `role`'s configured
database. -/
def cx_read_sql (f : Faults) (role : Role) (table : String) :
    PM ArrowTable := fun s =>
  match f.fRead with
  | some msg => (s, .error (.libError msg))
  | none =>
      match dbLookup (s.1.getDB role) table with
      | some t => (s, .ok t)
      | none => (s, .error (.libError ("no such table: " ++ table)))

/-- `pgeon.copy_query(get_pg_uri(config[database][source]), query)`:
reads from the configured source database. -/
def pgeon_copy_query (f : Faults) (table : String) : PM ArrowTable :=
  fun s =>
  match f.fRead with
  | some msg => (s, .error (.libError msg))
  | none =>
      match dbLookup s.1.sourceDB table with
      | some t => (s, .ok t)
      | none => (s, .error (.libError ("no such table: " ++ table)))

/-- `cur.adbc_ingest(name, data, mode="create_append")` on the
connection for `role`. -/
def adbc_ingest (f : Faults) (role : Role) (name : String)
    (t : ArrowTable) : PM Unit := fun s =>
  match f.fIngest with
  | some msg => (s, .error (.libError msg))
  | none =>
      match adbcIngest (s.1.getDB role) name t with
      | .ok db' =>
          ((s.1.setDB role db', s.2 ++ [.ingest role.label name t]), .ok ())
      | .error msg => (s, .error (.libError msg))

/-- `conn.commit()` on the connection for `role`. -/
def commit (f : Faults) (role : Role) : PM Unit := fun s =>
  match f.fCommit with
  | some msg => (s, .error (.libError msg))
  | none => ((s.1, s.2 ++ [.commit role.label]), .ok ())

/-- `ingest_to_database` from `src/python/db_operations.py`: ingest
under a cursor, then commit. -/
def ingest_to_database (f : Faults) (role : Role) (table_name : String)
    (t : ArrowTable) : PM Unit := do
  adbc_ingest f role table_name t
  commit f role

/-- Single-file write (`pq.write_table` / `feather.write_feather`). -/
def write_file (f : Faults) (path format : String) (t : ArrowTable) :
    PM Unit := fun s =>
  match f.fWrite with
  | some msg => (s, .error (.libError msg))
  | none =>
      (({ s.1 with fs := fsStore s.1.fs path { format := format, table := t } },
        s.2 ++ [.fileWrite path format t]), .ok ())

/-- `ds.write_dataset`. -/
def write_dataset (f : Faults) (path format : String) (t : ArrowTable) :
    PM Unit := fun s =>
  match f.fWrite with
  | some msg => (s, .error (.libError msg))
  | none =>
      (({ s.1 with fs := fsStore s.1.fs path { format := format, table := t } },
        s.2 ++ [.datasetWrite path format t]), .ok ())

/-- Body of `/load-data/` in `src/python/app.py`.  Unlike the
`src/app.py` version, the `local_path` branch is tested first and
`directory` only when `local_path` is falsy; the metadata is built from
the file or dataset schema (not from a table), and `conn.commit()` runs
after either branch. -/
def load_data_body (f : Faults) (p : LoadDataRequest) : PM Resp := do
  let w ← getW
  let conn ← liftE (get_connection p.database_role)
  let metadata : JVal ←
    if truthyStr p.local_path then do
      let entry ← parquet_file f (pathJoin w.baseDir (p.local_path.getD ""))
      adbc_ingest f conn p.table_name entry.table
      pure (generate_metadata entry.table.schema)
    else if truthyStr p.directory then do
      let entry ← ds_dataset_parquet f
        (pathJoin w.baseDir (p.directory.getD ""))
      adbc_ingest f conn p.table_name entry.table
      pure (generate_metadata entry.table.schema)
    else
      throwE (.httpExc 400 "Either local_path or directory must be provided.")
  commit f conn
  pure { status := strUpper p.file_format ++ " data loaded into " ++
           strUpper p.database_role,
         metadata := some metadata }

/-- `/load-data/` in `src/python/app.py`. -/
def load_data (f : Faults) (p : LoadDataRequest) : PM Resp :=
  endpoint (load_data_body f p)

/-- Body of `/export-data/` in `src/python/app.py`: identical write
logic to the `src/app.py` version, including the missing unpartitioned
branch for any format other than parquet and feather. -/
def export_data_body (f : Faults) (p : ExportDataRequest) : PM Resp := do
  let w ← getW
  let export_path := pathJoin w.baseDir p.export_path
  let conn ← liftE (get_connection p.database_role)
  let table ← fetch_arrow_table f conn p.table_name
  let _u ←
    ((if truthyList p.partitioning then
      write_dataset f export_path p.file_format table
    else
      if p.file_format = "parquet" then
        write_file f export_path "parquet" table
      else if p.file_format = "feather" then
        write_file f export_path "feather" table
      else
        pure ()) : PM Unit)
  pure { status := "Table exported to " ++ strUpper p.file_format ++
           " from " ++ strUpper p.database_role,
         metadata := some (generate_metadata table.schema) }

/-- `/export-data/` in `src/python/app.py`. -/
def export_data (f : Faults) (p : ExportDataRequest) : PM Resp :=
  endpoint (export_data_body f p)

/-- Body of `/export-connectorx/` in `src/python/app.py`: resolve the
role, check the configured `type` of that role's database (400 when it
is neither postgres nor sqlite), read via ConnectorX, write feather or
parquet (400 otherwise). -/
def export_connectorx_body (f : Faults) (p : ExportDataRequest) :
    PM Resp := do
  let w ← getW
  let export_path := pathJoin w.baseDir p.export_path
  let role : Role ←
    if p.database_role = "source" then
      if w.sourceType = "postgres" then pure Role.source
      else if w.sourceType = "sqlite" then pure Role.source
      else throwE (.httpExc 400 "Unsupported source database")
    else if p.database_role = "target" then
      if w.targetType = "postgres" then pure Role.target
      else if w.targetType = "sqlite" then pure Role.target
      else throwE (.httpExc 400 "Unsupported target database")
    else throwE (.httpExc 400 "Invalid database role")
  let table ← cx_read_sql f role p.table_name
  let _u ←
    ((if p.file_format = "feather" then
      if truthyList p.partitioning then
        write_dataset f export_path "feather" table
      else
        write_file f export_path "feather" table
    else if p.file_format = "parquet" then
      if truthyList p.partitioning then
        write_dataset f export_path "parquet" table
      else
        write_file f export_path "parquet" table
    else
      throwE (.httpExc 400 "Unsupported file format")) : PM Unit)
  pure { status := "Table exported to " ++ strUpper p.file_format ++
           " from " ++ strUpper p.database_role ++ " using ConnectorX",
         metadata := some (generate_metadata table.schema) }

/-- `/export-connectorx/` in `src/python/app.py`. -/
def export_connectorx (f : Faults) (p : ExportDataRequest) : PM Resp :=
  endpoint (export_connectorx_body f p)

/-- Steps of `/direct-load/` in `src/python/app.py` inside the `try`:
resolve the source and target connections from the fixed role strings,
fetch the whole source table over the source cursor, ingest it into the
target table on the target connection, commit the target. -/
def copy_table_body (f : Faults) (data : CopyTableRequest) : PM Resp := do
  let source_conn ← liftE (get_connection "source")
  let target_conn ← liftE (get_connection "target")
  let table ← fetch_arrow_table f source_conn data.source_table
  adbc_ingest f target_conn data.target_table table
  commit f target_conn
  pure { status := "Table copied successfully",
         metadata := some (generate_metadata table.schema) }

/-- `/direct-load/` in `src/python/app.py`.  Its `except` branch runs
`target_conn.rollback()` before re-raising as a 500; both
`get_connection` calls use the literal role strings and cannot fail, so
`target_conn` is always bound before the first fallible step and the
rollback always addresses the target connection. -/
def copy_table (f : Faults) (data : CopyTableRequest) : PM Resp :=
  tryCatchE (copy_table_body f data)
    (fun e => do
      emit (.rollback Role.target.label)
      throwE (.httpExc 500 (strExc e)))

/-- Body of `/copy-tablex/` in `src/python/app.py`: check the configured
source `type` (400 when it is neither postgres nor sqlite), fetch the
whole source table via `connectorx.read_sql` against the source URI,
ingest it into the target table through `ingest_to_database` on the
target connection. -/
def copy_tablex_body (f : Faults) (data : CopyTableRequest) : PM Resp := do
  let w ← getW
  let _u ←
    ((if w.sourceType = "postgres" then pure ()
    else if w.sourceType = "sqlite" then pure ()
    else throwE (.httpExc 400 "Unsupported source database")) : PM Unit)
  let table ← cx_read_sql f Role.source data.source_table
  let target_conn ← liftE (get_connection "target")
  ingest_to_database f target_conn data.target_table table
  pure { status := "Table copied successfully using ConnectorX",
         metadata := some (generate_metadata table.schema) }

/-- `/copy-tablex/` in `src/python/app.py`. -/
def copy_tablex (f : Faults) (data : CopyTableRequest) : PM Resp :=
  endpoint (copy_tablex_body f data)

/-- Body of `/export-pgeon/` in `src/python/app.py`: read via
`pgeon.copy_query` against the configured source URI, write parquet
(400 for any other format). -/
def export_pgeon_body (f : Faults) (p : ExportDataRequest) : PM Resp := do
  let w ← getW
  let export_path := pathJoin w.baseDir p.export_path
  let table ← pgeon_copy_query f p.table_name
  let _u ←
    ((if p.file_format = "parquet" then
      write_file f export_path "parquet" table
    else
      throwE (.httpExc 400 "Unsupported file format")) : PM Unit)
  pure { status := "Table exported to " ++ strUpper p.file_format ++
           " using pgeon",
         metadata := some (generate_metadata table.schema) }

/-- `/export-pgeon/` in `src/python/app.py`. -/
def export_pgeon (f : Faults) (p : ExportDataRequest) : PM Resp :=
  endpoint (export_pgeon_body f p)

/-- Body of `/generate-test-data/` in `src/python/app.py` (same demo
table and files as the `src/app.py` version). -/
def generate_test_data_body (f : Faults) : PM Resp := do
  let w ← getW
  let dir := pathJoin w.baseDir "test_data"
  write_file f (pathJoin dir "example.csv") "csv" App.test_table
  write_file f (pathJoin dir "example.arrow") "feather" App.test_table
  write_file f (pathJoin dir "example.parquet") "parquet" App.test_table
  write_dataset f (pathJoin dir "csv_dataset") "csv" App.test_table
  write_dataset f (pathJoin dir "ipc_dataset") "feather" App.test_table
  write_dataset f (pathJoin dir "parquet_dataset") "parquet" App.test_table
  pure { status := "Test data generated successfully", metadata := none }

/-- `/generate-test-data/` in `src/python/app.py`. -/
def generate_test_data (f : Faults) : PM Resp :=
  endpoint (generate_test_data_body f)

/-- The field names of `LoadDataRequest` in `src/python/models.py`. -/
def loadDataRequestFields : List String :=
  ["table_name", "local_path", "directory", "file_format",
   "partitioning", "database_role"]

/-- The field names of `ExportDataRequest` in `src/python/models.py`. -/
def exportDataRequestFields : List String :=
  ["table_name", "export_path", "file_format", "partitioning",
   "database_role"]

/-- The field names of `CopyTableRequest` in `src/python/models.py`. -/
def copyTableRequestFields : List String :=
  ["source_table", "target_table"]

end Python

/-- `m` only ever appends events satisfying `P` to the trace. -/
def EmitsOnly (P : Event → Prop) (m : M σ α) : Prop :=
  ∀ s u res, m s = (u, res) → ∀ ev ∈ u.2, ev ∈ s.2 ∨ P ev

/-- The event is not a rollback. -/
def NotRollback (ev : Event) : Prop := ∀ d, ev ≠ .rollback d

/-- The event is a database effect against the target connection (the
only effects the `src/python` copy handlers may perform). -/
def TargetDbEvent : Event → Prop
  | .ingest d _ _ => d = "target"
  | .commit d => d = "target"
  | .rollback d => d = "target"
  | .fileWrite _ _ _ => False
  | .datasetWrite _ _ _ => False

/-- The computation changes neither the source database nor the local
filesystem of the `src/python` world. -/
def PreservesSrc (m : M Python.World α) : Prop :=
  ∀ s, (m s).1.1.sourceDB = s.1.sourceDB ∧ (m s).1.1.fs = s.1.fs

/-! ## Concrete fixtures -/

/-- A two-row test table. -/
def tblA : ArrowTable :=
  { schema := [{ name := "id", ftype := "int64", nullable := true }],
    rows := [["1"], ["2"]] }

/-- A one-row test table with a different schema. -/
def tblB : ArrowTable :=
  { schema := [{ name := "label", ftype := "string", nullable := true }],
    rows := [["x"]] }

/-- A concrete `src/app.py` world: a `src` table in PostgreSQL, an empty
SQLite database, a parquet file and a parquet dataset directory under
`base_dir = data`. -/
def wApp : App.World :=
  { pg := [("src", tblA)], sq := [],
    fs := [("data/in.parquet", ⟨"parquet", tblA⟩),
           ("data/dir1", ⟨"parquet", tblB⟩)],
    baseDir := "data" }

/-- A concrete `src/python` world with the same content, source role on
PostgreSQL and target role on SQLite. -/
def wPy : Python.World :=
  { sourceDB := [("src", tblA)], targetDB := [],
    fs := [("data/in.parquet", ⟨"parquet", tblA⟩),
           ("data/dir1", ⟨"parquet", tblB⟩)],
    baseDir := "data",
    sourceType := "postgres", targetType := "sqlite" }

/-- The metadata dictionary shape the external contract describes:
`num_rows` is the table's row count, `num_columns` the number of schema
fields, and `schema` the name-to-type map. -/
def claimedMetadataShape (t : ArrowTable) (m : JVal) : Prop :=
  m.lookup "num_rows" = some (.num t.num_rows) ∧
  m.lookup "num_columns" = some (.num t.schema.length) ∧
  m.lookup "schema" =
    some (.obj (t.schema.map fun fd => (fd.name, .str fd.ftype)))

/-- A parquet export request against the source role (`src/python`). -/
def pyExportReq : Python.ExportDataRequest :=
  { table_name := "src", export_path := "out.parquet",
    file_format := "parquet", partitioning := none,
    database_role := "source" }

/-- A parquet export request against PostgreSQL (`src/app.py`). -/
def appExportReq : App.ExportDataRequest :=
  { table_name := "src", export_path := "out.parquet",
    file_format := "parquet", partitioning := none, database := "postgres" }

/-- An unpartitioned CSV export request (`src/app.py`). -/
def appCsvExportReq : App.ExportDataRequest :=
  { table_name := "src", export_path := "out.csv",
    file_format := "csv", partitioning := none, database := "postgres" }

/-- A copy request with an unsupported database identifier
(`src/app.py`). -/
def badCopyReq : App.CopyTableRequest :=
  { source_table := "src", target_table := "dst", database := "mysql" }

/-- A well-formed PostgreSQL copy request (`src/app.py`). -/
def goodCopyReq : App.CopyTableRequest :=
  { source_table := "src", target_table := "dst", database := "postgres" }

/-- A copy request whose source table does not exist (`src/app.py`). -/
def missingCopyReq : App.CopyTableRequest :=
  { source_table := "missing", target_table := "dst",
    database := "postgres" }

/-- A `src/python` copy request (no database field exists on the
model). -/
def pyCopyReq : Python.CopyTableRequest :=
  { source_table := "src", target_table := "dst" }

/-- A `src/python` load request with BOTH `local_path` and `directory`
set; the file and the directory hold tables with different schemas so
the branch actually taken is observable. -/
def pyBothReq : Python.LoadDataRequest :=
  { table_name := "t1", local_path := some "in.parquet",
    directory := some "dir1", file_format := "parquet",
    partitioning := none, database_role := "target" }

/-- A `src/app.py` load request with BOTH `local_path` and `directory`
set. -/
def appBothReq : App.LoadDataRequest :=
  { table_name := "t1", local_path := some "in.parquet",
    directory := some "dir1", file_format := "parquet",
    partitioning := none, database := "postgres" }

/-- Outcome shape of an endpoint whose `except` branch only re-raises:
either success, or HTTP 500 whose detail is `str(e)` for the exception
`e` the body raised. -/
def conv500 (handler body : M σ α) (w : σ) : Prop :=
  (∃ w' evs r, runHandler handler w = (w', evs, .ok r)) ∨
  (∃ w' evs e, body (w, []) = ((w', evs), .error e) ∧
    runHandler handler w = (w', evs, .err 500 (strExc e)))

/-- Outcome shape of the copy handlers, whose `except` branch also
rolls back connection `l` before re-raising. -/
def conv500rb (handler body : M σ α) (l : String) (w : σ) : Prop :=
  (∃ w' evs r, runHandler handler w = (w', evs, .ok r)) ∨
  (∃ w' evs e, body (w, []) = ((w', evs), .error e) ∧
    runHandler handler w = (w', evs ++ [.rollback l], .err 500 (strExc e)))

/-! ## Proof toolkit -/

theorem M.bind_def (x : M σ α) (g : α → M σ β) (s : σ × List Event) :
    (x >>= g) s = match x s with
      | (s', .ok a) => g a s'
      | (s', .error e) => (s', .error e) := rfl

theorem M.pure_def (a : α) (s : σ × List Event) :
    (pure a : M σ α) s = (s, .ok a) := rfl

theorem bind_ok_iff {x : M σ α} {g : α → M σ β} {s u : σ × List Event}
    {b : β} :
    (x >>= g) s = (u, .ok b) ↔
      ∃ s' a, x s = (s', .ok a) ∧ g a s' = (u, .ok b) := by
  rw [M.bind_def]
  rcases hx : x s with ⟨s', r⟩
  cases r with
  | ok a =>
      constructor
      · intro h
        exact ⟨s', a, rfl, h⟩
      · rintro ⟨s'', a', h1, h2⟩
        obtain ⟨h11, h12⟩ := Prod.mk.injEq .. ▸ h1
        obtain rfl := h11
        obtain rfl : a = a' := by simpa using h12
        exact h2
  | error e =>
      constructor
      · intro h
        cases h
      · rintro ⟨s'', a', h1, h2⟩
        exact absurd h1 (by simp)

theorem pure_ok_iff {a : α} {s u : σ × List Event} {b : α} :
    (pure a : M σ α) s = (u, .ok b) ↔ u = s ∧ b = a := by
  constructor
  · intro h
    obtain ⟨h1, h2⟩ := Prod.mk.injEq .. ▸ h
    exact ⟨h1.symm, by simpa using h2.symm⟩
  · rintro ⟨rfl, rfl⟩
    rfl

theorem getW_ok_iff {s u : σ × List Event} {b : σ} :
    (getW : M σ σ) s = (u, .ok b) ↔ u = s ∧ b = s.1 := by
  unfold getW
  constructor
  · intro h
    obtain ⟨h1, h2⟩ := Prod.mk.injEq .. ▸ h
    exact ⟨h1.symm, by simpa using h2.symm⟩
  · rintro ⟨rfl, rfl⟩
    rfl

theorem liftE_ok_iff {x : Except Exc α} {s u : σ × List Event} {b : α} :
    (liftE x : M σ α) s = (u, .ok b) ↔ u = s ∧ x = .ok b := by
  unfold liftE
  constructor
  · intro h
    obtain ⟨h1, h2⟩ := Prod.mk.injEq .. ▸ h
    exact ⟨h1.symm, h2⟩
  · rintro ⟨rfl, rfl⟩
    rfl

theorem throwE_ok_iff {e : Exc} {s u : σ × List Event} {b : α} :
    (throwE e : M σ α) s = (u, .ok b) ↔ False := by
  unfold throwE
  simp

theorem emit_ok_iff {ev : Event} {s u : σ × List Event} {b : Unit} :
    (emit ev : M σ Unit) s = (u, .ok b) ↔ u = (s.1, s.2 ++ [ev]) := by
  unfold emit
  constructor
  · intro h
    obtain ⟨h1, _⟩ := Prod.mk.injEq .. ▸ h
    exact h1.symm
  · rintro rfl
    rfl

theorem endpoint_ok_iff {body : M σ α} {s u : σ × List Event} {b : α} :
    endpoint body s = (u, .ok b) ↔ body s = (u, .ok b) := by
  unfold endpoint tryCatchE
  rcases hx : body s with ⟨s', r⟩
  cases r with
  | ok a => simp
  | error e =>
      simp only [throwE]
      constructor
      · intro h
        cases h
      · intro h
        cases h

theorem runHandler_ok_iff {m : M σ α} {w w' : σ} {evs : List Event}
    {r : α} :
    runHandler m w = (w', evs, .ok r) ↔ m (w, []) = ((w', evs), .ok r) := by
  unfold runHandler
  rcases hx : m (w, []) with ⟨⟨w1, evs1⟩, res⟩
  cases res with
  | ok a => simp [and_assoc]
  | error e => cases e <;> simp_all

theorem app_dsDatasetToTable_ok {f : Faults} {path format : String}
    {s u : App.World × List Event} {t : ArrowTable} :
    App.dsDatasetToTable f path format s = (u, .ok t) ↔
      f.fRead = none ∧ ∃ entry, fsLookup s.1.fs path = some entry ∧
        entry.format = format ∧ t = entry.table ∧ u = s := by
  unfold App.dsDatasetToTable
  rcases hfr : f.fRead with _ | m
  · rcases hlk : fsLookup s.1.fs path with _ | entry
    · simp [Prod.ext_iff]
    · by_cases hfm : entry.format = format
      · simp [hfm, Prod.ext_iff, eq_comm, and_comm]
      · simp [hfm, Prod.ext_iff]
  · simp [Prod.ext_iff]

theorem app_fetch_arrow_table_ok {f : Faults} {conn : App.DbId}
    {table : String} {s u : App.World × List Event} {t : ArrowTable} :
    App.fetch_arrow_table f conn table s = (u, .ok t) ↔
      f.fExec = none ∧ dbLookup (s.1.getDB conn) table = some t ∧ u = s := by
  unfold App.fetch_arrow_table
  rcases hfe : f.fExec with _ | m
  · rcases hlk : dbLookup (s.1.getDB conn) table with _ | v
    · simp [Prod.ext_iff]
    · simp [Prod.ext_iff, eq_comm, and_comm]
  · simp [Prod.ext_iff]

theorem app_cx_read_sql_ok {f : Faults} {conn : App.DbId}
    {table : String} {s u : App.World × List Event} {t : ArrowTable} :
    App.cx_read_sql f conn table s = (u, .ok t) ↔
      f.fRead = none ∧ dbLookup (s.1.getDB conn) table = some t ∧ u = s := by
  unfold App.cx_read_sql
  rcases hfr : f.fRead with _ | m
  · rcases hlk : dbLookup (s.1.getDB conn) table with _ | v
    · simp [Prod.ext_iff]
    · simp [Prod.ext_iff, eq_comm, and_comm]
  · simp [Prod.ext_iff]

theorem app_pgeon_copy_query_ok {f : Faults} {table : String}
    {s u : App.World × List Event} {t : ArrowTable} :
    App.pgeon_copy_query f table s = (u, .ok t) ↔
      f.fRead = none ∧ dbLookup s.1.pg table = some t ∧ u = s := by
  unfold App.pgeon_copy_query
  rcases hfr : f.fRead with _ | m
  · rcases hlk : dbLookup s.1.pg table with _ | v
    · simp [Prod.ext_iff]
    · simp [Prod.ext_iff, eq_comm, and_comm]
  · simp [Prod.ext_iff]

theorem app_adbc_ingest_ok {f : Faults} {conn : App.DbId} {name : String}
    {t : ArrowTable} {s u : App.World × List Event} {b : Unit}
    (h : App.adbc_ingest f conn name t s = (u, .ok b)) :
    f.fIngest = none ∧ ∃ db', adbcIngest (s.1.getDB conn) name t = .ok db' ∧
      u = (s.1.setDB conn db', s.2 ++ [.ingest conn.label name t]) := by
  unfold App.adbc_ingest at h
  cases hfi : f.fIngest with
  | some m =>
      simp only [hfi] at h
      exact absurd h (by simp)
  | none =>
      simp only [hfi] at h
      cases hin : adbcIngest (s.1.getDB conn) name t with
      | error msg =>
          simp only [hin] at h
          exact absurd h (by simp)
      | ok db' =>
          simp only [hin] at h
          obtain ⟨h1, h2⟩ := Prod.mk.injEq .. ▸ h
          exact ⟨rfl, db', rfl, h1.symm⟩

theorem app_commit_ok {f : Faults} {conn : App.DbId}
    {s u : App.World × List Event} {b : Unit} :
    App.commit f conn s = (u, .ok b) ↔
      f.fCommit = none ∧ u = (s.1, s.2 ++ [.commit conn.label]) := by
  unfold App.commit
  rcases hfc : f.fCommit with _ | m
  · simp [Prod.ext_iff, eq_comm]
  · simp [Prod.ext_iff]

theorem app_write_file_ok {f : Faults} {path format : String}
    {t : ArrowTable} {s u : App.World × List Event} {b : Unit} :
    App.write_file f path format t s = (u, .ok b) ↔
      f.fWrite = none ∧
        u = ({ s.1 with
                fs := fsStore s.1.fs path { format := format, table := t } },
             s.2 ++ [.fileWrite path format t]) := by
  unfold App.write_file
  rcases hfw : f.fWrite with _ | m
  · simp [Prod.ext_iff, eq_comm]
  · simp [Prod.ext_iff]

theorem app_write_dataset_ok {f : Faults} {path format : String}
    {t : ArrowTable} {s u : App.World × List Event} {b : Unit} :
    App.write_dataset f path format t s = (u, .ok b) ↔
      f.fWrite = none ∧
        u = ({ s.1 with
                fs := fsStore s.1.fs path { format := format, table := t } },
             s.2 ++ [.datasetWrite path format t]) := by
  unfold App.write_dataset
  rcases hfw : f.fWrite with _ | m
  · simp [Prod.ext_iff, eq_comm]
  · simp [Prod.ext_iff]

theorem app_get_connection_ok {d : String} {c : App.DbId} :
    App.get_connection d = .ok c ↔
      (d = "postgres" ∧ c = .postgres) ∨ (d = "sqlite" ∧ c = .sqlite) := by
  unfold App.get_connection
  by_cases h1 : d = "postgres"
  · simp [h1, eq_comm]
  · by_cases h2 : d = "sqlite" <;> simp [h1, h2, eq_comm]

theorem app_load_data_metadata {f : Faults} {p : App.LoadDataRequest}
    {w w' : App.World} {evs : List Event} {r : App.Resp}
    (h : runHandler (App.load_data f p) w = (w', evs, .ok r)) :
    ∃ t : ArrowTable, r.metadata = some (App.generate_metadata t) ∧
      ∃ conn : App.DbId, Event.ingest conn.label p.table_name t ∈ evs := by
  rw [runHandler_ok_iff] at h
  unfold App.load_data at h
  rw [endpoint_ok_iff] at h
  unfold App.load_data_body at h
  rw [bind_ok_iff] at h
  obtain ⟨s1, w1, hG, h⟩ := h
  rw [getW_ok_iff] at hG
  obtain ⟨rfl, rfl⟩ := hG
  by_cases hdir : truthyStr p.directory = true
  · rw [if_pos hdir] at h
    rw [bind_ok_iff] at h
    obtain ⟨s3, t, hR, h⟩ := h
    obtain ⟨-, entry, -, -, rfl, rfl⟩ := app_dsDatasetToTable_ok.mp hR
    rw [bind_ok_iff] at h
    obtain ⟨s4, y, hP, h⟩ := h
    rw [pure_ok_iff] at hP
    obtain ⟨rfl, rfl⟩ := hP
    simp only [] at h
    rw [bind_ok_iff] at h
    obtain ⟨s5, conn, hC, h⟩ := h
    rw [liftE_ok_iff] at hC
    obtain ⟨rfl, hC⟩ := hC
    unfold App.ingest_to_database at h
    rw [bind_ok_iff] at h
    obtain ⟨s6, hu, hI, h⟩ := h
    rw [bind_ok_iff] at hI
    obtain ⟨s7, hu2, hI1, hK⟩ := hI
    obtain ⟨-, db', -, rfl⟩ := app_adbc_ingest_ok hI1
    obtain ⟨-, rfl⟩ := app_commit_ok.mp hK
    rw [pure_ok_iff] at h
    obtain ⟨hEq, rfl⟩ := h
    obtain ⟨h1, h2⟩ := Prod.mk.injEq .. ▸ hEq
    refine ⟨entry.table, rfl, conn, ?_⟩
    rw [h2]
    simp
  · rw [if_neg hdir] at h
    by_cases hloc : truthyStr p.local_path = true
    · rw [if_pos hloc] at h
      rw [bind_ok_iff] at h
      obtain ⟨s3, t, hR, h⟩ := h
      obtain ⟨-, entry, -, -, rfl, rfl⟩ := app_dsDatasetToTable_ok.mp hR
      rw [bind_ok_iff] at h
      obtain ⟨s4, y, hP, h⟩ := h
      rw [pure_ok_iff] at hP
      obtain ⟨rfl, rfl⟩ := hP
      simp only [] at h
      rw [bind_ok_iff] at h
      obtain ⟨s5, conn, hC, h⟩ := h
      rw [liftE_ok_iff] at hC
      obtain ⟨rfl, hC⟩ := hC
      unfold App.ingest_to_database at h
      rw [bind_ok_iff] at h
      obtain ⟨s6, hu, hI, h⟩ := h
      rw [bind_ok_iff] at hI
      obtain ⟨s7, hu2, hI1, hK⟩ := hI
      obtain ⟨-, db', -, rfl⟩ := app_adbc_ingest_ok hI1
      obtain ⟨-, rfl⟩ := app_commit_ok.mp hK
      rw [pure_ok_iff] at h
      obtain ⟨hEq, rfl⟩ := h
      obtain ⟨h1, h2⟩ := Prod.mk.injEq .. ▸ hEq
      refine ⟨entry.table, rfl, conn, ?_⟩
      rw [h2]
      simp
    · rw [if_neg hloc] at h
      rw [bind_ok_iff] at h
      obtain ⟨s4, y, hP, h⟩ := h
      rw [pure_ok_iff] at hP
      obtain ⟨rfl, rfl⟩ := hP
      simp only [] at h
      rw [throwE_ok_iff] at h
      exact h.elim

theorem app_export_data_metadata {f : Faults} {p : App.ExportDataRequest}
    {w w' : App.World} {evs : List Event} {r : App.Resp}
    (h : runHandler (App.export_data f p) w = (w', evs, .ok r)) :
    ∃ (conn : App.DbId) (t : ArrowTable),
      App.get_connection p.database = .ok conn ∧
      dbLookup (w.getDB conn) p.table_name = some t ∧
      r.metadata = some (App.generate_metadata t) := by
  rw [runHandler_ok_iff] at h
  unfold App.export_data at h
  rw [endpoint_ok_iff] at h
  unfold App.export_data_body at h
  rw [bind_ok_iff] at h
  obtain ⟨s1, w1, hG, h⟩ := h
  rw [getW_ok_iff] at hG
  obtain ⟨rfl, rfl⟩ := hG
  rw [bind_ok_iff] at h
  obtain ⟨s2, conn, hC, h⟩ := h
  rw [liftE_ok_iff] at hC
  obtain ⟨rfl, hC⟩ := hC
  rw [bind_ok_iff] at h
  obtain ⟨s3, t, hF, h⟩ := h
  obtain ⟨-, hlk, rfl⟩ := app_fetch_arrow_table_ok.mp hF
  refine ⟨conn, t, hC, hlk, ?_⟩
  by_cases hpart : truthyList p.partitioning = true
  · rw [if_pos hpart] at h
    rw [bind_ok_iff] at h
    obtain ⟨s4, u4, hW, h⟩ := h
    rw [pure_ok_iff] at h
    obtain ⟨-, rfl⟩ := h
    rfl
  · rw [if_neg hpart] at h
    by_cases hpq : p.file_format = "parquet"
    · rw [if_pos hpq] at h
      rw [bind_ok_iff] at h
      obtain ⟨s4, u4, hW, h⟩ := h
      rw [pure_ok_iff] at h
      obtain ⟨-, rfl⟩ := h
      rfl
    · rw [if_neg hpq] at h
      by_cases hft : p.file_format = "feather"
      · rw [if_pos hft] at h
        rw [bind_ok_iff] at h
        obtain ⟨s4, u4, hW, h⟩ := h
        rw [pure_ok_iff] at h
        obtain ⟨-, rfl⟩ := h
        rfl
      · rw [if_neg hft] at h
        rw [bind_ok_iff] at h
        obtain ⟨s4, u4, hW, h⟩ := h
        rw [pure_ok_iff] at h
        obtain ⟨-, rfl⟩ := h
        rfl

theorem rollbackCatch_not_ok {l : String} {e : Exc}
    {s u : σ × List Event} {b : α} :
    ((do
        emit (.rollback l)
        throwE (.httpExc 500 (strExc e))) : M σ α) s = (u, .ok b) ↔
      False := by
  constructor
  · intro h
    rw [bind_ok_iff] at h
    obtain ⟨s', u', hE, hT⟩ := h
    rw [throwE_ok_iff] at hT
    exact hT
  · exact False.elim

theorem tryCatchE_ok_iff {body : M σ α} {handler : Exc → M σ α}
    {s u : σ × List Event} {b : α}
    (hc : ∀ e s' u' b', handler e s' ≠ (u', .ok b')) :
    tryCatchE body handler s = (u, .ok b) ↔ body s = (u, .ok b) := by
  unfold tryCatchE
  rcases hx : body s with ⟨s', r⟩
  cases r with
  | ok a => simp
  | error e =>
      constructor
      · intro h
        exact absurd h (hc e s' u b)
      · intro h
        cases h

theorem app_export_connectorx_metadata {f : Faults}
    {p : App.ExportDataRequest} {w w' : App.World} {evs : List Event}
    {r : App.Resp}
    (h : runHandler (App.export_connectorx f p) w = (w', evs, .ok r)) :
    ∃ (conn : App.DbId) (t : ArrowTable),
      dbLookup (w.getDB conn) p.table_name = some t ∧
      r.metadata = some (App.generate_metadata t) := by
  rw [runHandler_ok_iff] at h
  unfold App.export_connectorx at h
  rw [endpoint_ok_iff] at h
  unfold App.export_connectorx_body at h
  rw [bind_ok_iff] at h
  obtain ⟨s1, w1, hG, h⟩ := h
  rw [getW_ok_iff] at hG
  obtain ⟨rfl, rfl⟩ := hG
  have finish : ∀ (conn : App.DbId)
      (hrest : (do
          let table ← App.cx_read_sql f conn p.table_name
          let _u ←
            ((if p.file_format = "feather" then
              if truthyList p.partitioning then
                App.write_dataset f (pathJoin w1.baseDir p.export_path)
                  "feather" table
              else
                App.write_file f (pathJoin w1.baseDir p.export_path)
                  "feather" table
            else if p.file_format = "parquet" then
              if truthyList p.partitioning then
                App.write_dataset f (pathJoin w1.baseDir p.export_path)
                  "parquet" table
              else
                App.write_file f (pathJoin w1.baseDir p.export_path)
                  "parquet" table
            else
              throwE (.httpExc 400 "Unsupported file format")) : App.AM Unit)
          pure { status := "Table exported to " ++ strUpper p.file_format ++
                   " from " ++ strUpper p.database ++ " using ConnectorX",
                 metadata :=
                   some (App.generate_metadata table) } : M App.World App.Resp)
          (w1, []) = ((w', evs), .ok r)),
      ∃ (conn : App.DbId) (t : ArrowTable),
        dbLookup (w1.getDB conn) p.table_name = some t ∧
        r.metadata = some (App.generate_metadata t) := by
    intro conn hrest
    rw [bind_ok_iff] at hrest
    obtain ⟨s2, t, hR, hrest⟩ := hrest
    obtain ⟨-, hlk, rfl⟩ := app_cx_read_sql_ok.mp hR
    refine ⟨conn, t, hlk, ?_⟩
    by_cases hft : p.file_format = "feather"
    · rw [if_pos hft] at hrest
      by_cases hpart : truthyList p.partitioning = true
      · rw [if_pos hpart] at hrest
        rw [bind_ok_iff] at hrest
        obtain ⟨s4, u4, hW, hrest⟩ := hrest
        rw [pure_ok_iff] at hrest
        obtain ⟨-, rfl⟩ := hrest
        rfl
      · rw [if_neg hpart] at hrest
        rw [bind_ok_iff] at hrest
        obtain ⟨s4, u4, hW, hrest⟩ := hrest
        rw [pure_ok_iff] at hrest
        obtain ⟨-, rfl⟩ := hrest
        rfl
    · rw [if_neg hft] at hrest
      by_cases hpq : p.file_format = "parquet"
      · rw [if_pos hpq] at hrest
        by_cases hpart : truthyList p.partitioning = true
        · rw [if_pos hpart] at hrest
          rw [bind_ok_iff] at hrest
          obtain ⟨s4, u4, hW, hrest⟩ := hrest
          rw [pure_ok_iff] at hrest
          obtain ⟨-, rfl⟩ := hrest
          rfl
        · rw [if_neg hpart] at hrest
          rw [bind_ok_iff] at hrest
          obtain ⟨s4, u4, hW, hrest⟩ := hrest
          rw [pure_ok_iff] at hrest
          obtain ⟨-, rfl⟩ := hrest
          rfl
      · rw [if_neg hpq] at hrest
        rw [bind_ok_iff] at hrest
        obtain ⟨s4, u4, hT, hrest⟩ := hrest
        rw [throwE_ok_iff] at hT
        exact hT.elim
  by_cases h1 : p.database = "postgres"
  · rw [if_pos h1] at h
    rw [bind_ok_iff] at h
    obtain ⟨s2, conn, hP, h⟩ := h
    rw [pure_ok_iff] at hP
    obtain ⟨rfl, rfl⟩ := hP
    exact finish _ h
  · rw [if_neg h1] at h
    by_cases h2 : p.database = "sqlite"
    · rw [if_pos h2] at h
      rw [bind_ok_iff] at h
      obtain ⟨s2, conn, hP, h⟩ := h
      rw [pure_ok_iff] at hP
      obtain ⟨rfl, rfl⟩ := hP
      exact finish _ h
    · rw [if_neg h2] at h
      rw [bind_ok_iff] at h
      obtain ⟨s2, conn, hT, h⟩ := h
      rw [throwE_ok_iff] at hT
      exact hT.elim

theorem app_export_pgeon_metadata {f : Faults} {p : App.ExportDataRequest}
    {w w' : App.World} {evs : List Event} {r : App.Resp}
    (h : runHandler (App.export_pgeon f p) w = (w', evs, .ok r)) :
    ∃ t : ArrowTable, dbLookup w.pg p.table_name = some t ∧
      r.metadata = some (App.generate_metadata t) := by
  rw [runHandler_ok_iff] at h
  unfold App.export_pgeon at h
  rw [endpoint_ok_iff] at h
  unfold App.export_pgeon_body at h
  rw [bind_ok_iff] at h
  obtain ⟨s1, w1, hG, h⟩ := h
  rw [getW_ok_iff] at hG
  obtain ⟨rfl, rfl⟩ := hG
  rw [bind_ok_iff] at h
  obtain ⟨s2, t, hR, h⟩ := h
  obtain ⟨-, hlk, rfl⟩ := app_pgeon_copy_query_ok.mp hR
  refine ⟨t, hlk, ?_⟩
  by_cases hpq : p.file_format = "parquet"
  · rw [if_pos hpq] at h
    rw [bind_ok_iff] at h
    obtain ⟨s3, u3, hW, h⟩ := h
    rw [pure_ok_iff] at h
    obtain ⟨-, rfl⟩ := h
    rfl
  · rw [if_neg hpq] at h
    rw [bind_ok_iff] at h
    obtain ⟨s3, u3, hT, h⟩ := h
    rw [throwE_ok_iff] at hT
    exact hT.elim

theorem app_copy_table_metadata {f : Faults} {data : App.CopyTableRequest}
    {w w' : App.World} {evs : List Event} {r : App.Resp}
    (h : runHandler (App.copy_table f data) w = (w', evs, .ok r)) :
    ∃ (conn : App.DbId) (t : ArrowTable),
      App.get_connection data.database = .ok conn ∧
      dbLookup (w.getDB conn) data.source_table = some t ∧
      r.metadata = some (App.generate_metadata t) ∧
      Event.ingest conn.label data.target_table t ∈ evs := by
  rw [runHandler_ok_iff] at h
  unfold App.copy_table at h
  cases hC : App.get_connection data.database with
  | error e =>
      rw [hC] at h
      rw [throwE_ok_iff] at h
      exact h.elim
  | ok conn =>
      rw [hC] at h
      rw [tryCatchE_ok_iff (fun e s' u' b' => by
        rw [Ne, rollbackCatch_not_ok]
        exact not_false)] at h
      unfold App.copy_table_body at h
      rw [bind_ok_iff] at h
      obtain ⟨s1, t, hF, h⟩ := h
      obtain ⟨-, hlk, rfl⟩ := app_fetch_arrow_table_ok.mp hF
      rw [bind_ok_iff] at h
      obtain ⟨s2, u2, hI, h⟩ := h
      obtain ⟨-, db', -, rfl⟩ := app_adbc_ingest_ok hI
      rw [bind_ok_iff] at h
      obtain ⟨s3, u3, hK, h⟩ := h
      obtain ⟨-, rfl⟩ := app_commit_ok.mp hK
      rw [pure_ok_iff] at h
      obtain ⟨hEq, rfl⟩ := h
      obtain ⟨h1, h2⟩ := Prod.mk.injEq .. ▸ hEq
      refine ⟨conn, t, rfl, hlk, rfl, ?_⟩
      rw [h2]
      simp

theorem app_copy_tablex_metadata {f : Faults} {data : App.CopyTableRequest}
    {w w' : App.World} {evs : List Event} {r : App.Resp}
    (h : runHandler (App.copy_tablex f data) w = (w', evs, .ok r)) :
    ∃ (srcConn conn : App.DbId) (t : ArrowTable),
      dbLookup (w.getDB srcConn) data.source_table = some t ∧
      App.get_connection data.database = .ok conn ∧
      r.metadata = some (App.generate_metadata t) ∧
      Event.ingest conn.label data.target_table t ∈ evs := by
  rw [runHandler_ok_iff] at h
  unfold App.copy_tablex at h
  rw [endpoint_ok_iff] at h
  unfold App.copy_tablex_body at h
  have finish : ∀ (srcConn : App.DbId)
      (hrest : (do
          let table ← App.cx_read_sql f srcConn data.source_table
          let conn ← liftE (App.get_connection data.database)
          App.ingest_to_database f conn data.target_table table
          pure { status := "Table copied successfully using ConnectorX",
                 metadata :=
                   some (App.generate_metadata table) } : M App.World App.Resp)
          (w, []) = ((w', evs), .ok r)),
      ∃ (srcConn conn : App.DbId) (t : ArrowTable),
        dbLookup (w.getDB srcConn) data.source_table = some t ∧
        App.get_connection data.database = .ok conn ∧
        r.metadata = some (App.generate_metadata t) ∧
        Event.ingest conn.label data.target_table t ∈ evs := by
    intro srcConn hrest
    rw [bind_ok_iff] at hrest
    obtain ⟨s1, t, hR, hrest⟩ := hrest
    obtain ⟨-, hlk, rfl⟩ := app_cx_read_sql_ok.mp hR
    rw [bind_ok_iff] at hrest
    obtain ⟨s2, conn, hC, hrest⟩ := hrest
    rw [liftE_ok_iff] at hC
    obtain ⟨rfl, hC⟩ := hC
    unfold App.ingest_to_database at hrest
    rw [bind_ok_iff] at hrest
    obtain ⟨s3, u3, hI, hrest⟩ := hrest
    rw [bind_ok_iff] at hI
    obtain ⟨s4, u4, hI1, hK⟩ := hI
    obtain ⟨-, db', -, rfl⟩ := app_adbc_ingest_ok hI1
    obtain ⟨-, rfl⟩ := app_commit_ok.mp hK
    rw [pure_ok_iff] at hrest
    obtain ⟨hEq, rfl⟩ := hrest
    obtain ⟨h1, h2⟩ := Prod.mk.injEq .. ▸ hEq
    refine ⟨srcConn, conn, t, hlk, hC, rfl, ?_⟩
    rw [h2]
    simp
  by_cases h1 : data.database = "postgres"
  · rw [if_pos h1] at h
    rw [bind_ok_iff] at h
    obtain ⟨s0, srcConn, hP, h⟩ := h
    rw [pure_ok_iff] at hP
    obtain ⟨rfl, rfl⟩ := hP
    exact finish _ h
  · rw [if_neg h1] at h
    by_cases h2 : data.database = "sqlite"
    · rw [if_pos h2] at h
      rw [bind_ok_iff] at h
      obtain ⟨s0, srcConn, hP, h⟩ := h
      rw [pure_ok_iff] at hP
      obtain ⟨rfl, rfl⟩ := hP
      exact finish _ h
    · rw [if_neg h2] at h
      rw [bind_ok_iff] at h
      obtain ⟨s0, srcConn, hT, h⟩ := h
      rw [throwE_ok_iff] at hT
      exact hT.elim

theorem py_parquet_file_ok {f : Faults} {path : String}
    {s u : Python.World × List Event} {entry : FileEntry} :
    Python.parquet_file f path s = (u, .ok entry) ↔
      f.fRead = none ∧ fsLookup s.1.fs path = some entry ∧
        entry.format = "parquet" ∧ u = s := by
  unfold Python.parquet_file
  rcases hfr : f.fRead with _ | m
  · rcases hlk : fsLookup s.1.fs path with _ | e
    · simp [Prod.ext_iff]
    · simp only []
      by_cases hfm : e.format = "parquet"
      · rw [if_pos hfm]
        constructor
        · intro hh
          obtain ⟨h1, h2⟩ := Prod.mk.injEq .. ▸ hh
          obtain rfl : e = entry := by simpa using h2
          exact ⟨trivial, rfl, hfm, h1.symm⟩
        · rintro ⟨-, h2, -, rfl⟩
          obtain rfl : e = entry := by simpa using h2
          rfl
      · rw [if_neg hfm]
        constructor
        · intro hh
          exact absurd hh (by simp)
        · rintro ⟨-, h2, hfmt, -⟩
          obtain rfl : e = entry := by simpa using h2
          exact (hfm hfmt).elim
  · simp [Prod.ext_iff]

theorem py_ds_dataset_parquet_ok {f : Faults} {path : String}
    {s u : Python.World × List Event} {entry : FileEntry} :
    Python.ds_dataset_parquet f path s = (u, .ok entry) ↔
      f.fRead = none ∧ fsLookup s.1.fs path = some entry ∧
        entry.format = "parquet" ∧ u = s := by
  unfold Python.ds_dataset_parquet
  rcases hfr : f.fRead with _ | m
  · rcases hlk : fsLookup s.1.fs path with _ | e
    · simp [Prod.ext_iff]
    · simp only []
      by_cases hfm : e.format = "parquet"
      · rw [if_pos hfm]
        constructor
        · intro hh
          obtain ⟨h1, h2⟩ := Prod.mk.injEq .. ▸ hh
          obtain rfl : e = entry := by simpa using h2
          exact ⟨trivial, rfl, hfm, h1.symm⟩
        · rintro ⟨-, h2, -, rfl⟩
          obtain rfl : e = entry := by simpa using h2
          rfl
      · rw [if_neg hfm]
        constructor
        · intro hh
          exact absurd hh (by simp)
        · rintro ⟨-, h2, hfmt, -⟩
          obtain rfl : e = entry := by simpa using h2
          exact (hfm hfmt).elim
  · simp [Prod.ext_iff]

theorem py_fetch_arrow_table_ok {f : Faults} {role : Python.Role}
    {table : String} {s u : Python.World × List Event} {t : ArrowTable} :
    Python.fetch_arrow_table f role table s = (u, .ok t) ↔
      f.fExec = none ∧ dbLookup (s.1.getDB role) table = some t ∧ u = s := by
  unfold Python.fetch_arrow_table
  rcases hfe : f.fExec with _ | m
  · rcases hlk : dbLookup (s.1.getDB role) table with _ | v
    · simp [Prod.ext_iff]
    · simp [Prod.ext_iff, eq_comm, and_comm]
  · simp [Prod.ext_iff]

theorem py_cx_read_sql_ok {f : Faults} {role : Python.Role}
    {table : String} {s u : Python.World × List Event} {t : ArrowTable} :
    Python.cx_read_sql f role table s = (u, .ok t) ↔
      f.fRead = none ∧ dbLookup (s.1.getDB role) table = some t ∧ u = s := by
  unfold Python.cx_read_sql
  rcases hfr : f.fRead with _ | m
  · rcases hlk : dbLookup (s.1.getDB role) table with _ | v
    · simp [Prod.ext_iff]
    · simp [Prod.ext_iff, eq_comm, and_comm]
  · simp [Prod.ext_iff]

theorem py_pgeon_copy_query_ok {f : Faults} {table : String}
    {s u : Python.World × List Event} {t : ArrowTable} :
    Python.pgeon_copy_query f table s = (u, .ok t) ↔
      f.fRead = none ∧ dbLookup s.1.sourceDB table = some t ∧ u = s := by
  unfold Python.pgeon_copy_query
  rcases hfr : f.fRead with _ | m
  · rcases hlk : dbLookup s.1.sourceDB table with _ | v
    · simp [Prod.ext_iff]
    · simp [Prod.ext_iff, eq_comm, and_comm]
  · simp [Prod.ext_iff]

theorem py_adbc_ingest_ok {f : Faults} {role : Python.Role}
    {name : String} {t : ArrowTable} {s u : Python.World × List Event}
    {b : Unit}
    (h : Python.adbc_ingest f role name t s = (u, .ok b)) :
    f.fIngest = none ∧ ∃ db', adbcIngest (s.1.getDB role) name t = .ok db' ∧
      u = (s.1.setDB role db', s.2 ++ [.ingest role.label name t]) := by
  unfold Python.adbc_ingest at h
  cases hfi : f.fIngest with
  | some m =>
      simp only [hfi] at h
      exact absurd h (by simp)
  | none =>
      simp only [hfi] at h
      cases hin : adbcIngest (s.1.getDB role) name t with
      | error msg =>
          simp only [hin] at h
          exact absurd h (by simp)
      | ok db' =>
          simp only [hin] at h
          obtain ⟨h1, h2⟩ := Prod.mk.injEq .. ▸ h
          exact ⟨rfl, db', rfl, h1.symm⟩

theorem py_commit_ok {f : Faults} {role : Python.Role}
    {s u : Python.World × List Event} {b : Unit} :
    Python.commit f role s = (u, .ok b) ↔
      f.fCommit = none ∧ u = (s.1, s.2 ++ [.commit role.label]) := by
  unfold Python.commit
  rcases hfc : f.fCommit with _ | m
  · simp [Prod.ext_iff, eq_comm]
  · simp [Prod.ext_iff]

theorem py_write_file_ok {f : Faults} {path format : String}
    {t : ArrowTable} {s u : Python.World × List Event} {b : Unit} :
    Python.write_file f path format t s = (u, .ok b) ↔
      f.fWrite = none ∧
        u = ({ s.1 with
                fs := fsStore s.1.fs path { format := format, table := t } },
             s.2 ++ [.fileWrite path format t]) := by
  unfold Python.write_file
  rcases hfw : f.fWrite with _ | m
  · simp [Prod.ext_iff, eq_comm]
  · simp [Prod.ext_iff]

theorem py_write_dataset_ok {f : Faults} {path format : String}
    {t : ArrowTable} {s u : Python.World × List Event} {b : Unit} :
    Python.write_dataset f path format t s = (u, .ok b) ↔
      f.fWrite = none ∧
        u = ({ s.1 with
                fs := fsStore s.1.fs path { format := format, table := t } },
             s.2 ++ [.datasetWrite path format t]) := by
  unfold Python.write_dataset
  rcases hfw : f.fWrite with _ | m
  · simp [Prod.ext_iff, eq_comm]
  · simp [Prod.ext_iff]

theorem py_get_connection_ok {d : String} {c : Python.Role} :
    Python.get_connection d = .ok c ↔
      (d = "source" ∧ c = .source) ∨ (d = "target" ∧ c = .target) := by
  unfold Python.get_connection
  by_cases h1 : d = "source"
  · simp [h1, eq_comm]
  · by_cases h2 : d = "target" <;> simp [h1, h2, eq_comm]

theorem py_load_data_metadata {f : Faults} {p : Python.LoadDataRequest}
    {w w' : Python.World} {evs : List Event} {r : Python.Resp}
    (h : runHandler (Python.load_data f p) w = (w', evs, .ok r)) :
    ∃ (role : Python.Role) (entry : FileEntry),
      r.metadata = some (Python.generate_metadata entry.table.schema) ∧
      Event.ingest role.label p.table_name entry.table ∈ evs := by
  rw [runHandler_ok_iff] at h
  unfold Python.load_data at h
  rw [endpoint_ok_iff] at h
  unfold Python.load_data_body at h
  rw [bind_ok_iff] at h
  obtain ⟨s1, w1, hG, h⟩ := h
  rw [getW_ok_iff] at hG
  obtain ⟨rfl, rfl⟩ := hG
  rw [bind_ok_iff] at h
  obtain ⟨s2, conn, hC, h⟩ := h
  rw [liftE_ok_iff] at hC
  obtain ⟨rfl, hC⟩ := hC
  by_cases hloc : truthyStr p.local_path = true
  · rw [if_pos hloc] at h
    rw [bind_ok_iff] at h
    obtain ⟨s3, entry, hR, h⟩ := h
    obtain ⟨-, hlk, -, rfl⟩ := py_parquet_file_ok.mp hR
    rw [bind_ok_iff] at h
    obtain ⟨s4, u4, hI, h⟩ := h
    obtain ⟨-, db', -, rfl⟩ := py_adbc_ingest_ok hI
    rw [bind_ok_iff] at h
    obtain ⟨s5, md, hP, h⟩ := h
    rw [pure_ok_iff] at hP
    obtain ⟨rfl, rfl⟩ := hP
    rw [bind_ok_iff] at h
    obtain ⟨s6, u6, hK, h⟩ := h
    obtain ⟨-, rfl⟩ := py_commit_ok.mp hK
    rw [pure_ok_iff] at h
    obtain ⟨hEq, rfl⟩ := h
    obtain ⟨h1, h2⟩ := Prod.mk.injEq .. ▸ hEq
    refine ⟨conn, entry, rfl, ?_⟩
    rw [h2]
    simp
  · rw [if_neg hloc] at h
    by_cases hdir : truthyStr p.directory = true
    · rw [if_pos hdir] at h
      rw [bind_ok_iff] at h
      obtain ⟨s3, entry, hR, h⟩ := h
      obtain ⟨-, hlk, -, rfl⟩ := py_ds_dataset_parquet_ok.mp hR
      rw [bind_ok_iff] at h
      obtain ⟨s4, u4, hI, h⟩ := h
      obtain ⟨-, db', -, rfl⟩ := py_adbc_ingest_ok hI
      rw [bind_ok_iff] at h
      obtain ⟨s5, md, hP, h⟩ := h
      rw [pure_ok_iff] at hP
      obtain ⟨rfl, rfl⟩ := hP
      rw [bind_ok_iff] at h
      obtain ⟨s6, u6, hK, h⟩ := h
      obtain ⟨-, rfl⟩ := py_commit_ok.mp hK
      rw [pure_ok_iff] at h
      obtain ⟨hEq, rfl⟩ := h
      obtain ⟨h1, h2⟩ := Prod.mk.injEq .. ▸ hEq
      refine ⟨conn, entry, rfl, ?_⟩
      rw [h2]
      simp
    · rw [if_neg hdir] at h
      rw [bind_ok_iff] at h
      obtain ⟨s3, md, hT, h⟩ := h
      rw [throwE_ok_iff] at hT
      exact hT.elim

theorem py_export_data_metadata {f : Faults}
    {p : Python.ExportDataRequest} {w w' : Python.World} {evs : List Event}
    {r : Python.Resp}
    (h : runHandler (Python.export_data f p) w = (w', evs, .ok r)) :
    ∃ (role : Python.Role) (t : ArrowTable),
      Python.get_connection p.database_role = .ok role ∧
      dbLookup (w.getDB role) p.table_name = some t ∧
      r.metadata = some (Python.generate_metadata t.schema) := by
  rw [runHandler_ok_iff] at h
  unfold Python.export_data at h
  rw [endpoint_ok_iff] at h
  unfold Python.export_data_body at h
  rw [bind_ok_iff] at h
  obtain ⟨s1, w1, hG, h⟩ := h
  rw [getW_ok_iff] at hG
  obtain ⟨rfl, rfl⟩ := hG
  rw [bind_ok_iff] at h
  obtain ⟨s2, role, hC, h⟩ := h
  rw [liftE_ok_iff] at hC
  obtain ⟨rfl, hC⟩ := hC
  rw [bind_ok_iff] at h
  obtain ⟨s3, t, hF, h⟩ := h
  obtain ⟨-, hlk, rfl⟩ := py_fetch_arrow_table_ok.mp hF
  refine ⟨role, t, hC, hlk, ?_⟩
  by_cases hpart : truthyList p.partitioning = true
  · rw [if_pos hpart] at h
    rw [bind_ok_iff] at h
    obtain ⟨s4, u4, hW, h⟩ := h
    rw [pure_ok_iff] at h
    obtain ⟨-, rfl⟩ := h
    rfl
  · rw [if_neg hpart] at h
    by_cases hpq : p.file_format = "parquet"
    · rw [if_pos hpq] at h
      rw [bind_ok_iff] at h
      obtain ⟨s4, u4, hW, h⟩ := h
      rw [pure_ok_iff] at h
      obtain ⟨-, rfl⟩ := h
      rfl
    · rw [if_neg hpq] at h
      by_cases hft : p.file_format = "feather"
      · rw [if_pos hft] at h
        rw [bind_ok_iff] at h
        obtain ⟨s4, u4, hW, h⟩ := h
        rw [pure_ok_iff] at h
        obtain ⟨-, rfl⟩ := h
        rfl
      · rw [if_neg hft] at h
        rw [bind_ok_iff] at h
        obtain ⟨s4, u4, hW, h⟩ := h
        rw [pure_ok_iff] at h
        obtain ⟨-, rfl⟩ := h
        rfl

theorem py_export_connectorx_metadata {f : Faults}
    {p : Python.ExportDataRequest} {w w' : Python.World} {evs : List Event}
    {r : Python.Resp}
    (h : runHandler (Python.export_connectorx f p) w = (w', evs, .ok r)) :
    ∃ (role : Python.Role) (t : ArrowTable),
      dbLookup (w.getDB role) p.table_name = some t ∧
      r.metadata = some (Python.generate_metadata t.schema) := by
  rw [runHandler_ok_iff] at h
  unfold Python.export_connectorx at h
  rw [endpoint_ok_iff] at h
  unfold Python.export_connectorx_body at h
  rw [bind_ok_iff] at h
  obtain ⟨s1, w1, hG, h⟩ := h
  rw [getW_ok_iff] at hG
  obtain ⟨rfl, rfl⟩ := hG
  have finish : ∀ (role : Python.Role)
      (hrest : (do
          let table ← Python.cx_read_sql f role p.table_name
          let _u ←
            ((if p.file_format = "feather" then
              if truthyList p.partitioning then
                Python.write_dataset f (pathJoin w1.baseDir p.export_path)
                  "feather" table
              else
                Python.write_file f (pathJoin w1.baseDir p.export_path)
                  "feather" table
            else if p.file_format = "parquet" then
              if truthyList p.partitioning then
                Python.write_dataset f (pathJoin w1.baseDir p.export_path)
                  "parquet" table
              else
                Python.write_file f (pathJoin w1.baseDir p.export_path)
                  "parquet" table
            else
              throwE (.httpExc 400 "Unsupported file format")) : Python.PM Unit)
          pure { status := "Table exported to " ++ strUpper p.file_format ++
                   " from " ++ strUpper p.database_role ++ " using ConnectorX",
                 metadata :=
                   some (Python.generate_metadata table.schema) } :
          M Python.World Python.Resp)
          (w1, []) = ((w', evs), .ok r)),
      ∃ (role : Python.Role) (t : ArrowTable),
        dbLookup (w1.getDB role) p.table_name = some t ∧
        r.metadata = some (Python.generate_metadata t.schema) := by
    intro role hrest
    rw [bind_ok_iff] at hrest
    obtain ⟨s2, t, hR, hrest⟩ := hrest
    obtain ⟨-, hlk, rfl⟩ := py_cx_read_sql_ok.mp hR
    refine ⟨role, t, hlk, ?_⟩
    by_cases hft : p.file_format = "feather"
    · rw [if_pos hft] at hrest
      by_cases hpart : truthyList p.partitioning = true
      · rw [if_pos hpart] at hrest
        rw [bind_ok_iff] at hrest
        obtain ⟨s4, u4, hW, hrest⟩ := hrest
        rw [pure_ok_iff] at hrest
        obtain ⟨-, rfl⟩ := hrest
        rfl
      · rw [if_neg hpart] at hrest
        rw [bind_ok_iff] at hrest
        obtain ⟨s4, u4, hW, hrest⟩ := hrest
        rw [pure_ok_iff] at hrest
        obtain ⟨-, rfl⟩ := hrest
        rfl
    · rw [if_neg hft] at hrest
      by_cases hpq : p.file_format = "parquet"
      · rw [if_pos hpq] at hrest
        by_cases hpart : truthyList p.partitioning = true
        · rw [if_pos hpart] at hrest
          rw [bind_ok_iff] at hrest
          obtain ⟨s4, u4, hW, hrest⟩ := hrest
          rw [pure_ok_iff] at hrest
          obtain ⟨-, rfl⟩ := hrest
          rfl
        · rw [if_neg hpart] at hrest
          rw [bind_ok_iff] at hrest
          obtain ⟨s4, u4, hW, hrest⟩ := hrest
          rw [pure_ok_iff] at hrest
          obtain ⟨-, rfl⟩ := hrest
          rfl
      · rw [if_neg hpq] at hrest
        rw [bind_ok_iff] at hrest
        obtain ⟨s4, u4, hT, hrest⟩ := hrest
        rw [throwE_ok_iff] at hT
        exact hT.elim
  by_cases h1 : p.database_role = "source"
  · rw [if_pos h1] at h
    by_cases hs1 : w1.sourceType = "postgres"
    · rw [if_pos hs1] at h
      rw [bind_ok_iff] at h
      obtain ⟨s2, role, hP, h⟩ := h
      rw [pure_ok_iff] at hP
      obtain ⟨rfl, rfl⟩ := hP
      exact finish _ h
    · rw [if_neg hs1] at h
      by_cases hs2 : w1.sourceType = "sqlite"
      · rw [if_pos hs2] at h
        rw [bind_ok_iff] at h
        obtain ⟨s2, role, hP, h⟩ := h
        rw [pure_ok_iff] at hP
        obtain ⟨rfl, rfl⟩ := hP
        exact finish _ h
      · rw [if_neg hs2] at h
        rw [bind_ok_iff] at h
        obtain ⟨s2, role, hT, h⟩ := h
        rw [throwE_ok_iff] at hT
        exact hT.elim
  · rw [if_neg h1] at h
    by_cases h2 : p.database_role = "target"
    · rw [if_pos h2] at h
      by_cases ht1 : w1.targetType = "postgres"
      · rw [if_pos ht1] at h
        rw [bind_ok_iff] at h
        obtain ⟨s2, role, hP, h⟩ := h
        rw [pure_ok_iff] at hP
        obtain ⟨rfl, rfl⟩ := hP
        exact finish _ h
      · rw [if_neg ht1] at h
        by_cases ht2 : w1.targetType = "sqlite"
        · rw [if_pos ht2] at h
          rw [bind_ok_iff] at h
          obtain ⟨s2, role, hP, h⟩ := h
          rw [pure_ok_iff] at hP
          obtain ⟨rfl, rfl⟩ := hP
          exact finish _ h
        · rw [if_neg ht2] at h
          rw [bind_ok_iff] at h
          obtain ⟨s2, role, hT, h⟩ := h
          rw [throwE_ok_iff] at hT
          exact hT.elim
    · rw [if_neg h2] at h
      rw [bind_ok_iff] at h
      obtain ⟨s2, role, hT, h⟩ := h
      rw [throwE_ok_iff] at hT
      exact hT.elim

theorem py_copy_table_metadata {f : Faults}
    {data : Python.CopyTableRequest} {w w' : Python.World}
    {evs : List Event} {r : Python.Resp}
    (h : runHandler (Python.copy_table f data) w = (w', evs, .ok r)) :
    ∃ t : ArrowTable, dbLookup w.sourceDB data.source_table = some t ∧
      r.metadata = some (Python.generate_metadata t.schema) ∧
      Event.ingest "target" data.target_table t ∈ evs := by
  rw [runHandler_ok_iff] at h
  unfold Python.copy_table at h
  rw [tryCatchE_ok_iff (fun e s' u' b' => by
    rw [Ne, rollbackCatch_not_ok]
    exact not_false)] at h
  unfold Python.copy_table_body at h
  rw [bind_ok_iff] at h
  obtain ⟨s1, cs, hC1, h⟩ := h
  rw [liftE_ok_iff] at hC1
  obtain ⟨rfl, hC1⟩ := hC1
  obtain rfl : cs = Python.Role.source := by
    have : Python.get_connection "source" = .ok Python.Role.source := rfl
    rw [this] at hC1
    simpa using hC1.symm
  rw [bind_ok_iff] at h
  obtain ⟨s2, ct, hC2, h⟩ := h
  rw [liftE_ok_iff] at hC2
  obtain ⟨rfl, hC2⟩ := hC2
  obtain rfl : ct = Python.Role.target := by
    have : Python.get_connection "target" = .ok Python.Role.target := rfl
    rw [this] at hC2
    simpa using hC2.symm
  rw [bind_ok_iff] at h
  obtain ⟨s3, t, hF, h⟩ := h
  obtain ⟨-, hlk, rfl⟩ := py_fetch_arrow_table_ok.mp hF
  rw [bind_ok_iff] at h
  obtain ⟨s4, u4, hI, h⟩ := h
  obtain ⟨-, db', -, rfl⟩ := py_adbc_ingest_ok hI
  rw [bind_ok_iff] at h
  obtain ⟨s5, u5, hK, h⟩ := h
  obtain ⟨-, rfl⟩ := py_commit_ok.mp hK
  rw [pure_ok_iff] at h
  obtain ⟨hEq, rfl⟩ := h
  obtain ⟨h1, h2⟩ := Prod.mk.injEq .. ▸ hEq
  refine ⟨t, hlk, rfl, ?_⟩
  rw [h2]
  simp [Python.Role.label]

theorem py_copy_tablex_metadata {f : Faults}
    {data : Python.CopyTableRequest} {w w' : Python.World}
    {evs : List Event} {r : Python.Resp}
    (h : runHandler (Python.copy_tablex f data) w = (w', evs, .ok r)) :
    ∃ t : ArrowTable, dbLookup w.sourceDB data.source_table = some t ∧
      r.metadata = some (Python.generate_metadata t.schema) ∧
      Event.ingest "target" data.target_table t ∈ evs := by
  rw [runHandler_ok_iff] at h
  unfold Python.copy_tablex at h
  rw [endpoint_ok_iff] at h
  unfold Python.copy_tablex_body at h
  rw [bind_ok_iff] at h
  obtain ⟨s1, w1, hG, h⟩ := h
  rw [getW_ok_iff] at hG
  obtain ⟨rfl, rfl⟩ := hG
  have finish : ∀
      (hrest : (do
          let table ← Python.cx_read_sql f Python.Role.source
            data.source_table
          let target_conn ← liftE (Python.get_connection "target")
          Python.ingest_to_database f target_conn data.target_table table
          pure { status := "Table copied successfully using ConnectorX",
                 metadata :=
                   some (Python.generate_metadata table.schema) } :
          M Python.World Python.Resp)
          (w1, []) = ((w', evs), .ok r)),
      ∃ t : ArrowTable, dbLookup w1.sourceDB data.source_table = some t ∧
        r.metadata = some (Python.generate_metadata t.schema) ∧
        Event.ingest "target" data.target_table t ∈ evs := by
    intro hrest
    rw [bind_ok_iff] at hrest
    obtain ⟨s2, t, hR, hrest⟩ := hrest
    obtain ⟨-, hlk, rfl⟩ := py_cx_read_sql_ok.mp hR
    rw [bind_ok_iff] at hrest
    obtain ⟨s3, ct, hC, hrest⟩ := hrest
    rw [liftE_ok_iff] at hC
    obtain ⟨rfl, hC⟩ := hC
    obtain rfl : ct = Python.Role.target := by
      have : Python.get_connection "target" = .ok Python.Role.target := rfl
      rw [this] at hC
      simpa using hC.symm
    unfold Python.ingest_to_database at hrest
    rw [bind_ok_iff] at hrest
    obtain ⟨s4, u4, hI, hrest⟩ := hrest
    rw [bind_ok_iff] at hI
    obtain ⟨s5, u5, hI1, hK⟩ := hI
    obtain ⟨-, db', -, rfl⟩ := py_adbc_ingest_ok hI1
    obtain ⟨-, rfl⟩ := py_commit_ok.mp hK
    rw [pure_ok_iff] at hrest
    obtain ⟨hEq, rfl⟩ := hrest
    obtain ⟨h1, h2⟩ := Prod.mk.injEq .. ▸ hEq
    refine ⟨t, hlk, rfl, ?_⟩
    rw [h2]
    simp [Python.Role.label]
  by_cases h1 : w1.sourceType = "postgres"
  · rw [if_pos h1] at h
    rw [bind_ok_iff] at h
    obtain ⟨s2, u2, hP, h⟩ := h
    rw [pure_ok_iff] at hP
    obtain ⟨rfl, -⟩ := hP
    exact finish h
  · rw [if_neg h1] at h
    by_cases h2 : w1.sourceType = "sqlite"
    · rw [if_pos h2] at h
      rw [bind_ok_iff] at h
      obtain ⟨s2, u2, hP, h⟩ := h
      rw [pure_ok_iff] at hP
      obtain ⟨rfl, -⟩ := hP
      exact finish h
    · rw [if_neg h2] at h
      rw [bind_ok_iff] at h
      obtain ⟨s2, u2, hT, h⟩ := h
      rw [throwE_ok_iff] at hT
      exact hT.elim

theorem py_export_pgeon_metadata {f : Faults}
    {p : Python.ExportDataRequest} {w w' : Python.World} {evs : List Event}
    {r : Python.Resp}
    (h : runHandler (Python.export_pgeon f p) w = (w', evs, .ok r)) :
    ∃ t : ArrowTable, dbLookup w.sourceDB p.table_name = some t ∧
      r.metadata = some (Python.generate_metadata t.schema) := by
  rw [runHandler_ok_iff] at h
  unfold Python.export_pgeon at h
  rw [endpoint_ok_iff] at h
  unfold Python.export_pgeon_body at h
  rw [bind_ok_iff] at h
  obtain ⟨s1, w1, hG, h⟩ := h
  rw [getW_ok_iff] at hG
  obtain ⟨rfl, rfl⟩ := hG
  rw [bind_ok_iff] at h
  obtain ⟨s2, t, hR, h⟩ := h
  obtain ⟨-, hlk, rfl⟩ := py_pgeon_copy_query_ok.mp hR
  refine ⟨t, hlk, ?_⟩
  by_cases hpq : p.file_format = "parquet"
  · rw [if_pos hpq] at h
    rw [bind_ok_iff] at h
    obtain ⟨s3, u3, hW, h⟩ := h
    rw [pure_ok_iff] at h
    obtain ⟨-, rfl⟩ := h
    rfl
  · rw [if_neg hpq] at h
    rw [bind_ok_iff] at h
    obtain ⟨s3, u3, hT, h⟩ := h
    rw [throwE_ok_iff] at hT
    exact hT.elim

/-- Outcome dichotomy for an `endpoint`-wrapped handler: either the body
succeeds and the client gets its response, or the body raises some
exception `e` and the client gets HTTP 500 with detail `str(e)` — with
the world and trace exactly as the body left them. -/
theorem endpoint_outcome (body : M σ α) (w : σ) :
    (∃ w' evs r, runHandler (endpoint body) w = (w', evs, .ok r)) ∨
    (∃ w' evs e, body (w, []) = ((w', evs), .error e) ∧
      runHandler (endpoint body) w = (w', evs, .err 500 (strExc e))) := by
  unfold runHandler endpoint tryCatchE
  rcases hb : body (w, []) with ⟨⟨w1, evs1⟩, res⟩
  cases res with
  | ok a =>
      left
      exact ⟨w1, evs1, a, rfl⟩
  | error e =>
      right
      exact ⟨w1, evs1, e, rfl, rfl⟩

/-- Outcome dichotomy for the copy handlers, whose `except` branch runs
`rollback()` before re-raising: on a body exception `e` the client gets
HTTP 500 with detail `str(e)` and the trace gains a final rollback
event; the world is exactly as the body left it. -/
theorem rollbackCatch_outcome (body : M σ α) (l : String) (w : σ) :
    (∃ w' evs r, runHandler
        (tryCatchE body (fun e => do
          emit (.rollback l)
          throwE (.httpExc 500 (strExc e)))) w = (w', evs, .ok r)) ∨
    (∃ w' evs e, body (w, []) = ((w', evs), .error e) ∧
      runHandler
        (tryCatchE body (fun e => do
          emit (.rollback l)
          throwE (.httpExc 500 (strExc e)))) w =
        (w', evs ++ [.rollback l], .err 500 (strExc e))) := by
  unfold runHandler tryCatchE
  rcases hb : body (w, []) with ⟨⟨w1, evs1⟩, res⟩
  cases res with
  | ok a =>
      left
      exact ⟨w1, evs1, a, rfl⟩
  | error e =>
      right
      exact ⟨w1, evs1, e, rfl, rfl⟩

/-- The `except` branch of an `endpoint`-wrapped handler performs no
effect of its own: the final world and trace are exactly those the body
reached (it only re-labels the exception). -/
theorem endpoint_state (body : M σ α) (s : σ × List Event) :
    (endpoint body s).1 = (body s).1 := by
  unfold endpoint tryCatchE
  rcases hb : body s with ⟨s', res⟩
  cases res <;> rfl

/-- The copy handlers' `except` branch changes no world state either; it
only appends the rollback event and re-raises. -/
theorem rollbackCatch_state (body : M σ α) (l : String)
    (s : σ × List Event) :
    ((tryCatchE body (fun e => do
        emit (.rollback l)
        throwE (.httpExc 500 (strExc e)))) s).1.1 = (body s).1.1 := by
  unfold tryCatchE
  rcases hb : body s with ⟨s', res⟩
  cases res <;> rfl

theorem eo_stateless {P : Event → Prop} {m : M σ α}
    (h : ∀ s, (m s).1 = s) : EmitsOnly P m := by
  intro s u res hm ev hev
  left
  have h1 := h s
  rw [hm] at h1
  rw [← h1]
  exact hev

theorem eo_of_append {P : Event → Prop} {m : M σ α} (e0 : Event)
    (hP : P e0)
    (h : ∀ s, (m s).1.2 = s.2 ∨ (m s).1.2 = s.2 ++ [e0]) : EmitsOnly P m := by
  intro s u res hm ev hev
  rcases h s with h1 | h1 <;> rw [hm] at h1
  · exact Or.inl (h1 ▸ hev)
  · rw [h1] at hev
    rcases List.mem_append.mp hev with h2 | h2
    · exact Or.inl h2
    · right
      obtain rfl : ev = e0 := by simpa using h2
      exact hP

theorem eo_bind {P : Event → Prop} {x : M σ α} {g : α → M σ β}
    (hx : EmitsOnly P x) (hg : ∀ a, EmitsOnly P (g a)) :
    EmitsOnly P (x >>= g) := by
  intro s u res h ev hev
  rw [M.bind_def] at h
  rcases hx' : x s with ⟨s', r⟩
  rw [hx'] at h
  cases r with
  | ok a =>
      rcases hg a s' u res h ev hev with h1 | h2
      · exact hx s s' _ hx' ev h1
      · exact Or.inr h2
  | error e =>
      obtain ⟨h1, -⟩ := Prod.mk.injEq .. ▸ h
      rw [← h1] at hev
      exact hx s s' _ hx' ev hev

theorem eo_ite {P : Event → Prop} {c : Prop} [Decidable c] {x y : M σ α}
    (hx : EmitsOnly P x) (hy : EmitsOnly P y) :
    EmitsOnly P (if c then x else y) := by
  by_cases hc : c
  · rw [if_pos hc]
    exact hx
  · rw [if_neg hc]
    exact hy

theorem eo_endpoint {P : Event → Prop} {body : M σ α}
    (hb : EmitsOnly P body) : EmitsOnly P (endpoint body) := by
  intro s u res h ev hev
  unfold endpoint tryCatchE at h
  rcases hb' : body s with ⟨s', r⟩
  rw [hb'] at h
  cases r with
  | ok a =>
      obtain ⟨h1, -⟩ := Prod.mk.injEq .. ▸ h
      rw [← h1] at hev
      exact hb s s' _ hb' ev hev
  | error e =>
      obtain ⟨h1, -⟩ := Prod.mk.injEq .. ▸ h
      rw [← h1] at hev
      exact hb s s' _ hb' ev hev

theorem eo_pure {P : Event → Prop} {a : α} :
    EmitsOnly P (pure a : M σ α) :=
  eo_stateless (fun _ => rfl)

theorem eo_throwE {P : Event → Prop} {e : Exc} :
    EmitsOnly P (throwE e : M σ α) :=
  eo_stateless (fun _ => rfl)

theorem eo_getW {P : Event → Prop} :
    EmitsOnly P (getW : M σ σ) :=
  eo_stateless (fun _ => rfl)

theorem eo_liftE {P : Event → Prop} {x : Except Exc α} :
    EmitsOnly P (liftE x : M σ α) :=
  eo_stateless (fun _ => rfl)

theorem eo_app_dsDatasetToTable {P : Event → Prop} {f : Faults}
    {path format : String} :
    EmitsOnly P (App.dsDatasetToTable f path format) := by
  apply eo_stateless
  intro s
  unfold App.dsDatasetToTable
  cases hfr : f.fRead with
  | some m => rfl
  | none =>
      cases hlk : fsLookup s.1.fs path with
      | none => rfl
      | some entry =>
          by_cases hfm : entry.format = format
          · simp [hfm]
          · simp [hfm]

theorem eo_app_fetch {P : Event → Prop} {f : Faults} {conn : App.DbId}
    {table : String} :
    EmitsOnly P (App.fetch_arrow_table f conn table) := by
  apply eo_stateless
  intro s
  unfold App.fetch_arrow_table
  cases hfe : f.fExec with
  | some m => rfl
  | none =>
      cases hlk : dbLookup (s.1.getDB conn) table with
      | none => rfl
      | some t => rfl

theorem eo_app_cx {P : Event → Prop} {f : Faults} {conn : App.DbId}
    {table : String} :
    EmitsOnly P (App.cx_read_sql f conn table) := by
  apply eo_stateless
  intro s
  unfold App.cx_read_sql
  cases hfr : f.fRead with
  | some m => rfl
  | none =>
      cases hlk : dbLookup (s.1.getDB conn) table with
      | none => rfl
      | some t => rfl

theorem eo_app_pgeon {P : Event → Prop} {f : Faults} {table : String} :
    EmitsOnly P (App.pgeon_copy_query f table) := by
  apply eo_stateless
  intro s
  unfold App.pgeon_copy_query
  cases hfr : f.fRead with
  | some m => rfl
  | none =>
      cases hlk : dbLookup s.1.pg table with
      | none => rfl
      | some t => rfl

theorem eo_app_ingest {P : Event → Prop} {f : Faults} {conn : App.DbId}
    {name : String} {t : ArrowTable}
    (hP : P (.ingest conn.label name t)) :
    EmitsOnly P (App.adbc_ingest f conn name t) := by
  apply eo_of_append _ hP
  intro s
  unfold App.adbc_ingest
  cases hfi : f.fIngest with
  | some m => simp
  | none =>
      cases hin : adbcIngest (s.1.getDB conn) name t with
      | ok db' => simp
      | error msg => simp

theorem eo_app_commit {P : Event → Prop} {f : Faults} {conn : App.DbId}
    (hP : P (.commit conn.label)) :
    EmitsOnly P (App.commit f conn) := by
  apply eo_of_append _ hP
  intro s
  unfold App.commit
  cases hfc : f.fCommit with
  | some m => simp
  | none => simp

theorem eo_app_write_file {P : Event → Prop} {f : Faults}
    {path format : String} {t : ArrowTable}
    (hP : P (.fileWrite path format t)) :
    EmitsOnly P (App.write_file f path format t) := by
  apply eo_of_append _ hP
  intro s
  unfold App.write_file
  cases hfw : f.fWrite with
  | some m => simp
  | none => simp

theorem eo_app_write_dataset {P : Event → Prop} {f : Faults}
    {path format : String} {t : ArrowTable}
    (hP : P (.datasetWrite path format t)) :
    EmitsOnly P (App.write_dataset f path format t) := by
  apply eo_of_append _ hP
  intro s
  unfold App.write_dataset
  cases hfw : f.fWrite with
  | some m => simp
  | none => simp

theorem eo_py_parquet_file {P : Event → Prop} {f : Faults} {path : String} :
    EmitsOnly P (Python.parquet_file f path) := by
  apply eo_stateless
  intro s
  unfold Python.parquet_file
  cases hfr : f.fRead with
  | some m => rfl
  | none =>
      cases hlk : fsLookup s.1.fs path with
      | none => rfl
      | some entry =>
          by_cases hfm : entry.format = "parquet"
          · simp [hfm]
          · simp [hfm]

theorem eo_py_ds_dataset {P : Event → Prop} {f : Faults} {path : String} :
    EmitsOnly P (Python.ds_dataset_parquet f path) := by
  apply eo_stateless
  intro s
  unfold Python.ds_dataset_parquet
  cases hfr : f.fRead with
  | some m => rfl
  | none =>
      cases hlk : fsLookup s.1.fs path with
      | none => rfl
      | some entry =>
          by_cases hfm : entry.format = "parquet"
          · simp [hfm]
          · simp [hfm]

theorem eo_py_fetch {P : Event → Prop} {f : Faults} {role : Python.Role}
    {table : String} :
    EmitsOnly P (Python.fetch_arrow_table f role table) := by
  apply eo_stateless
  intro s
  unfold Python.fetch_arrow_table
  cases hfe : f.fExec with
  | some m => rfl
  | none =>
      cases hlk : dbLookup (s.1.getDB role) table with
      | none => rfl
      | some t => rfl

theorem eo_py_cx {P : Event → Prop} {f : Faults} {role : Python.Role}
    {table : String} :
    EmitsOnly P (Python.cx_read_sql f role table) := by
  apply eo_stateless
  intro s
  unfold Python.cx_read_sql
  cases hfr : f.fRead with
  | some m => rfl
  | none =>
      cases hlk : dbLookup (s.1.getDB role) table with
      | none => rfl
      | some t => rfl

theorem eo_py_pgeon {P : Event → Prop} {f : Faults} {table : String} :
    EmitsOnly P (Python.pgeon_copy_query f table) := by
  apply eo_stateless
  intro s
  unfold Python.pgeon_copy_query
  cases hfr : f.fRead with
  | some m => rfl
  | none =>
      cases hlk : dbLookup s.1.sourceDB table with
      | none => rfl
      | some t => rfl

theorem eo_py_ingest {P : Event → Prop} {f : Faults} {role : Python.Role}
    {name : String} {t : ArrowTable}
    (hP : P (.ingest role.label name t)) :
    EmitsOnly P (Python.adbc_ingest f role name t) := by
  apply eo_of_append _ hP
  intro s
  unfold Python.adbc_ingest
  cases hfi : f.fIngest with
  | some m => simp
  | none =>
      cases hin : adbcIngest (s.1.getDB role) name t with
      | ok db' => simp
      | error msg => simp

theorem eo_py_commit {P : Event → Prop} {f : Faults} {role : Python.Role}
    (hP : P (.commit role.label)) :
    EmitsOnly P (Python.commit f role) := by
  apply eo_of_append _ hP
  intro s
  unfold Python.commit
  cases hfc : f.fCommit with
  | some m => simp
  | none => simp

theorem eo_py_write_file {P : Event → Prop} {f : Faults}
    {path format : String} {t : ArrowTable}
    (hP : P (.fileWrite path format t)) :
    EmitsOnly P (Python.write_file f path format t) := by
  apply eo_of_append _ hP
  intro s
  unfold Python.write_file
  cases hfw : f.fWrite with
  | some m => simp
  | none => simp

theorem eo_py_write_dataset {P : Event → Prop} {f : Faults}
    {path format : String} {t : ArrowTable}
    (hP : P (.datasetWrite path format t)) :
    EmitsOnly P (Python.write_dataset f path format t) := by
  apply eo_of_append _ hP
  intro s
  unfold Python.write_dataset
  cases hfw : f.fWrite with
  | some m => simp
  | none => simp

theorem notRollback_ingest {d n : String} {t : ArrowTable} :
    NotRollback (.ingest d n t) := by
  intro d' h
  cases h

theorem notRollback_commit {d : String} : NotRollback (.commit d) := by
  intro d' h
  cases h

theorem notRollback_fileWrite {p fo : String} {t : ArrowTable} :
    NotRollback (.fileWrite p fo t) := by
  intro d' h
  cases h

theorem notRollback_datasetWrite {p fo : String} {t : ArrowTable} :
    NotRollback (.datasetWrite p fo t) := by
  intro d' h
  cases h

theorem norb_app_load_data (f : Faults) (p : App.LoadDataRequest) :
    EmitsOnly NotRollback (App.load_data f p) := by
  unfold App.load_data
  apply eo_endpoint
  unfold App.load_data_body
  apply eo_bind eo_getW
  intro w1
  have branch : ∀ (path : String),
      EmitsOnly NotRollback (do
        let t ← App.dsDatasetToTable f path p.file_format
        let y ← pure (some t)
        (fun dataset =>
          match dataset with
          | none =>
              throwE (.httpExc 400
                "Either local_path or directory must be provided.")
          | some table => do
              let conn ← liftE (App.get_connection p.database)
              App.ingest_to_database f conn p.table_name table
              pure { status := strUpper p.file_format ++ " data loaded into "
                       ++ strUpper p.database,
                     metadata :=
                       some (App.generate_metadata table) }) y :
        M App.World App.Resp) := by
    intro path
    apply eo_bind eo_app_dsDatasetToTable
    intro t
    apply eo_bind eo_pure
    intro y
    cases y with
    | none => exact eo_throwE
    | some table =>
        apply eo_bind eo_liftE
        intro conn
        apply eo_bind
        · unfold App.ingest_to_database
          exact eo_bind (eo_app_ingest notRollback_ingest)
            (fun _ => eo_app_commit notRollback_commit)
        · intro u
          exact eo_pure
  apply eo_ite
  · exact branch _
  · apply eo_ite
    · exact branch _
    · apply eo_bind eo_pure
      intro y
      cases y with
      | none => exact eo_throwE
      | some table =>
          apply eo_bind eo_liftE
          intro conn
          apply eo_bind
          · unfold App.ingest_to_database
            exact eo_bind (eo_app_ingest notRollback_ingest)
              (fun _ => eo_app_commit notRollback_commit)
          · intro u
            exact eo_pure

theorem norb_app_export_data (f : Faults) (p : App.ExportDataRequest) :
    EmitsOnly NotRollback (App.export_data f p) := by
  unfold App.export_data
  apply eo_endpoint
  unfold App.export_data_body
  apply eo_bind eo_getW
  intro w1
  apply eo_bind eo_liftE
  intro conn
  apply eo_bind eo_app_fetch
  intro table
  apply eo_bind
  · apply eo_ite
    · exact eo_app_write_dataset notRollback_datasetWrite
    · apply eo_ite
      · exact eo_app_write_file notRollback_fileWrite
      · apply eo_ite
        · exact eo_app_write_file notRollback_fileWrite
        · exact eo_pure
  · intro u
    exact eo_pure

theorem norb_app_export_connectorx (f : Faults)
    (p : App.ExportDataRequest) :
    EmitsOnly NotRollback (App.export_connectorx f p) := by
  unfold App.export_connectorx
  apply eo_endpoint
  unfold App.export_connectorx_body
  apply eo_bind eo_getW
  intro w1
  have rest : ∀ conn : App.DbId,
      EmitsOnly NotRollback (do
        let table ← App.cx_read_sql f conn p.table_name
        let _u ←
          ((if p.file_format = "feather" then
            if truthyList p.partitioning then
              App.write_dataset f (pathJoin w1.baseDir p.export_path)
                "feather" table
            else
              App.write_file f (pathJoin w1.baseDir p.export_path)
                "feather" table
          else if p.file_format = "parquet" then
            if truthyList p.partitioning then
              App.write_dataset f (pathJoin w1.baseDir p.export_path)
                "parquet" table
            else
              App.write_file f (pathJoin w1.baseDir p.export_path)
                "parquet" table
          else
            throwE (.httpExc 400 "Unsupported file format")) : App.AM Unit)
        pure { status := "Table exported to " ++ strUpper p.file_format ++
                 " from " ++ strUpper p.database ++ " using ConnectorX",
               metadata :=
                 some (App.generate_metadata table) } :
        M App.World App.Resp) := by
    intro conn
    apply eo_bind eo_app_cx
    intro table
    apply eo_bind
    · apply eo_ite
      · apply eo_ite
        · exact eo_app_write_dataset notRollback_datasetWrite
        · exact eo_app_write_file notRollback_fileWrite
      · apply eo_ite
        · apply eo_ite
          · exact eo_app_write_dataset notRollback_datasetWrite
          · exact eo_app_write_file notRollback_fileWrite
        · exact eo_throwE
    · intro u
      exact eo_pure
  apply eo_ite
  · exact eo_bind eo_pure (fun conn => rest conn)
  · apply eo_ite
    · exact eo_bind eo_pure (fun conn => rest conn)
    · exact eo_bind eo_throwE (fun conn => rest conn)

theorem norb_app_copy_tablex (f : Faults) (data : App.CopyTableRequest) :
    EmitsOnly NotRollback (App.copy_tablex f data) := by
  unfold App.copy_tablex
  apply eo_endpoint
  unfold App.copy_tablex_body
  have rest : ∀ srcConn : App.DbId,
      EmitsOnly NotRollback (do
        let table ← App.cx_read_sql f srcConn data.source_table
        let conn ← liftE (App.get_connection data.database)
        App.ingest_to_database f conn data.target_table table
        pure { status := "Table copied successfully using ConnectorX",
               metadata :=
                 some (App.generate_metadata table) } :
        M App.World App.Resp) := by
    intro srcConn
    apply eo_bind eo_app_cx
    intro table
    apply eo_bind eo_liftE
    intro conn
    apply eo_bind
    · unfold App.ingest_to_database
      exact eo_bind (eo_app_ingest notRollback_ingest)
        (fun _ => eo_app_commit notRollback_commit)
    · intro u
      exact eo_pure
  apply eo_ite
  · exact eo_bind eo_pure (fun c => rest c)
  · apply eo_ite
    · exact eo_bind eo_pure (fun c => rest c)
    · exact eo_bind eo_throwE (fun c => rest c)

theorem norb_app_export_pgeon (f : Faults) (p : App.ExportDataRequest) :
    EmitsOnly NotRollback (App.export_pgeon f p) := by
  unfold App.export_pgeon
  apply eo_endpoint
  unfold App.export_pgeon_body
  apply eo_bind eo_getW
  intro w1
  apply eo_bind eo_app_pgeon
  intro table
  apply eo_bind
  · apply eo_ite
    · exact eo_app_write_file notRollback_fileWrite
    · exact eo_throwE
  · intro u
    exact eo_pure

theorem norb_app_generate_test_data (f : Faults) :
    EmitsOnly NotRollback (App.generate_test_data f) := by
  unfold App.generate_test_data
  apply eo_endpoint
  unfold App.generate_test_data_body
  apply eo_bind eo_getW
  intro w1
  apply eo_bind (eo_app_write_file notRollback_fileWrite)
  intro u1
  apply eo_bind (eo_app_write_file notRollback_fileWrite)
  intro u2
  apply eo_bind (eo_app_write_file notRollback_fileWrite)
  intro u3
  apply eo_bind (eo_app_write_dataset notRollback_datasetWrite)
  intro u4
  apply eo_bind (eo_app_write_dataset notRollback_datasetWrite)
  intro u5
  apply eo_bind (eo_app_write_dataset notRollback_datasetWrite)
  intro u6
  exact eo_pure

theorem norb_py_load_data (f : Faults) (p : Python.LoadDataRequest) :
    EmitsOnly NotRollback (Python.load_data f p) := by
  unfold Python.load_data
  apply eo_endpoint
  unfold Python.load_data_body
  apply eo_bind eo_getW
  intro w1
  apply eo_bind eo_liftE
  intro conn
  apply eo_ite
  · apply eo_bind eo_py_parquet_file
    intro entry
    apply eo_bind (eo_py_ingest notRollback_ingest)
    intro u1
    apply eo_bind eo_pure
    intro metadata
    apply eo_bind (eo_py_commit notRollback_commit)
    intro u2
    exact eo_pure
  · apply eo_ite
    · apply eo_bind eo_py_ds_dataset
      intro entry
      apply eo_bind (eo_py_ingest notRollback_ingest)
      intro u1
      apply eo_bind eo_pure
      intro metadata
      apply eo_bind (eo_py_commit notRollback_commit)
      intro u2
      exact eo_pure
    · apply eo_bind eo_throwE
      intro metadata
      apply eo_bind (eo_py_commit notRollback_commit)
      intro u2
      exact eo_pure

theorem norb_py_export_data (f : Faults) (p : Python.ExportDataRequest) :
    EmitsOnly NotRollback (Python.export_data f p) := by
  unfold Python.export_data
  apply eo_endpoint
  unfold Python.export_data_body
  apply eo_bind eo_getW
  intro w1
  apply eo_bind eo_liftE
  intro conn
  apply eo_bind eo_py_fetch
  intro table
  apply eo_bind
  · apply eo_ite
    · exact eo_py_write_dataset notRollback_datasetWrite
    · apply eo_ite
      · exact eo_py_write_file notRollback_fileWrite
      · apply eo_ite
        · exact eo_py_write_file notRollback_fileWrite
        · exact eo_pure
  · intro u
    exact eo_pure

theorem norb_py_export_connectorx (f : Faults)
    (p : Python.ExportDataRequest) :
    EmitsOnly NotRollback (Python.export_connectorx f p) := by
  unfold Python.export_connectorx
  apply eo_endpoint
  unfold Python.export_connectorx_body
  apply eo_bind eo_getW
  intro w1
  have rest : ∀ role : Python.Role,
      EmitsOnly NotRollback (do
        let table ← Python.cx_read_sql f role p.table_name
        let _u ←
          ((if p.file_format = "feather" then
            if truthyList p.partitioning then
              Python.write_dataset f (pathJoin w1.baseDir p.export_path)
                "feather" table
            else
              Python.write_file f (pathJoin w1.baseDir p.export_path)
                "feather" table
          else if p.file_format = "parquet" then
            if truthyList p.partitioning then
              Python.write_dataset f (pathJoin w1.baseDir p.export_path)
                "parquet" table
            else
              Python.write_file f (pathJoin w1.baseDir p.export_path)
                "parquet" table
          else
            throwE (.httpExc 400 "Unsupported file format")) : Python.PM Unit)
        pure { status := "Table exported to " ++ strUpper p.file_format ++
                 " from " ++ strUpper p.database_role ++ " using ConnectorX",
               metadata :=
                 some (Python.generate_metadata table.schema) } :
        M Python.World Python.Resp) := by
    intro role
    apply eo_bind eo_py_cx
    intro table
    apply eo_bind
    · apply eo_ite
      · apply eo_ite
        · exact eo_py_write_dataset notRollback_datasetWrite
        · exact eo_py_write_file notRollback_fileWrite
      · apply eo_ite
        · apply eo_ite
          · exact eo_py_write_dataset notRollback_datasetWrite
          · exact eo_py_write_file notRollback_fileWrite
        · exact eo_throwE
    · intro u
      exact eo_pure
  apply eo_ite
  · apply eo_ite
    · exact eo_bind eo_pure (fun role => rest role)
    · apply eo_ite
      · exact eo_bind eo_pure (fun role => rest role)
      · exact eo_bind eo_throwE (fun role => rest role)
  · apply eo_ite
    · apply eo_ite
      · exact eo_bind eo_pure (fun role => rest role)
      · apply eo_ite
        · exact eo_bind eo_pure (fun role => rest role)
        · exact eo_bind eo_throwE (fun role => rest role)
    · exact eo_bind eo_throwE (fun role => rest role)

theorem norb_py_copy_tablex (f : Faults) (data : Python.CopyTableRequest) :
    EmitsOnly NotRollback (Python.copy_tablex f data) := by
  unfold Python.copy_tablex
  apply eo_endpoint
  unfold Python.copy_tablex_body
  apply eo_bind eo_getW
  intro w1
  apply eo_bind
  · apply eo_ite
    · exact eo_pure
    · apply eo_ite
      · exact eo_pure
      · exact eo_throwE
  · intro u
    apply eo_bind eo_py_cx
    intro table
    apply eo_bind eo_liftE
    intro target_conn
    apply eo_bind
    · unfold Python.ingest_to_database
      exact eo_bind (eo_py_ingest notRollback_ingest)
        (fun _ => eo_py_commit notRollback_commit)
    · intro u2
      exact eo_pure

theorem norb_py_export_pgeon (f : Faults) (p : Python.ExportDataRequest) :
    EmitsOnly NotRollback (Python.export_pgeon f p) := by
  unfold Python.export_pgeon
  apply eo_endpoint
  unfold Python.export_pgeon_body
  apply eo_bind eo_getW
  intro w1
  apply eo_bind eo_py_pgeon
  intro table
  apply eo_bind
  · apply eo_ite
    · exact eo_py_write_file notRollback_fileWrite
    · exact eo_throwE
  · intro u
    exact eo_pure

theorem norb_py_generate_test_data (f : Faults) :
    EmitsOnly NotRollback (Python.generate_test_data f) := by
  unfold Python.generate_test_data
  apply eo_endpoint
  unfold Python.generate_test_data_body
  apply eo_bind eo_getW
  intro w1
  apply eo_bind (eo_py_write_file notRollback_fileWrite)
  intro u1
  apply eo_bind (eo_py_write_file notRollback_fileWrite)
  intro u2
  apply eo_bind (eo_py_write_file notRollback_fileWrite)
  intro u3
  apply eo_bind (eo_py_write_dataset notRollback_datasetWrite)
  intro u4
  apply eo_bind (eo_py_write_dataset notRollback_datasetWrite)
  intro u5
  apply eo_bind (eo_py_write_dataset notRollback_datasetWrite)
  intro u6
  exact eo_pure

/-- From `EmitsOnly NotRollback` on a handler: a run from an empty trace
never contains a rollback event. -/
theorem no_rollback_of_emitsOnly {m : M σ α}
    (h : EmitsOnly NotRollback m) (w : σ) (d : String) :
    Event.rollback d ∉ (runHandler m w).2.1 := by
  intro hmem
  unfold runHandler at hmem
  rcases hm : m (w, []) with ⟨⟨w1, evs1⟩, res⟩
  have hev : Event.rollback d ∈ evs1 := by
    rw [hm] at hmem
    cases res with
    | ok a => exact hmem
    | error e => cases e <;> simpa using hmem
  rcases h (w, []) (w1, evs1) res hm _ hev with h1 | h2
  · simp at h1
  · exact h2 d rfl

theorem eo_tryCatchE {P : Event → Prop} {body : M σ α}
    {handler : Exc → M σ α} (hb : EmitsOnly P body)
    (hh : ∀ e, EmitsOnly P (handler e)) :
    EmitsOnly P (tryCatchE body handler) := by
  intro s u res h ev hev
  unfold tryCatchE at h
  rcases hb' : body s with ⟨s', r⟩
  rw [hb'] at h
  cases r with
  | ok a =>
      obtain ⟨h1, -⟩ := Prod.mk.injEq .. ▸ h
      rw [← h1] at hev
      exact hb s s' _ hb' ev hev
  | error e =>
      rcases hh e s' u res h ev hev with h1 | h2
      · exact hb s s' _ hb' ev h1
      · exact Or.inr h2

theorem eo_emit {P : Event → Prop} {ev0 : Event} (hP : P ev0) :
    EmitsOnly P (emit ev0 : M σ Unit) := by
  apply eo_of_append _ hP
  intro s
  right
  rfl

theorem psrc_stateless {m : M Python.World α} (h : ∀ s, (m s).1 = s) :
    PreservesSrc m := by
  intro s
  rw [h s]
  exact ⟨rfl, rfl⟩

theorem psrc_bind {x : M Python.World α} {g : α → M Python.World β}
    (hx : PreservesSrc x) (hg : ∀ a, PreservesSrc (g a)) :
    PreservesSrc (x >>= g) := by
  intro s
  rw [M.bind_def]
  rcases hx' : x s with ⟨s', r⟩
  have h1 := hx s
  rw [hx'] at h1
  cases r with
  | ok a =>
      have h2 := hg a s'
      exact ⟨h2.1.trans h1.1, h2.2.trans h1.2⟩
  | error e => exact h1

theorem psrc_ite {c : Prop} [Decidable c] {x y : M Python.World α}
    (hx : PreservesSrc x) (hy : PreservesSrc y) :
    PreservesSrc (if c then x else y) := by
  by_cases hc : c
  · rw [if_pos hc]
    exact hx
  · rw [if_neg hc]
    exact hy

theorem psrc_tryCatchE {body : M Python.World α}
    {handler : Exc → M Python.World α} (hb : PreservesSrc body)
    (hh : ∀ e, PreservesSrc (handler e)) :
    PreservesSrc (tryCatchE body handler) := by
  intro s
  unfold tryCatchE
  rcases hb' : body s with ⟨s', r⟩
  have h1 := hb s
  rw [hb'] at h1
  cases r with
  | ok a => exact h1
  | error e =>
      have h2 := hh e s'
      exact ⟨h2.1.trans h1.1, h2.2.trans h1.2⟩

theorem psrc_pure {a : α} : PreservesSrc (pure a : M Python.World α) :=
  psrc_stateless (fun _ => rfl)

theorem psrc_throwE {e : Exc} :
    PreservesSrc (throwE e : M Python.World α) :=
  psrc_stateless (fun _ => rfl)

theorem psrc_getW : PreservesSrc (getW : M Python.World Python.World) :=
  psrc_stateless (fun _ => rfl)

theorem psrc_liftE {x : Except Exc α} :
    PreservesSrc (liftE x : M Python.World α) :=
  psrc_stateless (fun _ => rfl)

theorem psrc_emit {ev : Event} :
    PreservesSrc (emit ev : M Python.World Unit) := by
  intro s
  exact ⟨rfl, rfl⟩

theorem psrc_py_fetch {f : Faults} {role : Python.Role} {table : String} :
    PreservesSrc (Python.fetch_arrow_table f role table) := by
  apply psrc_stateless
  intro s
  unfold Python.fetch_arrow_table
  cases hfe : f.fExec with
  | some m => rfl
  | none =>
      cases hlk : dbLookup (s.1.getDB role) table with
      | none => rfl
      | some t => rfl

theorem psrc_py_cx {f : Faults} {role : Python.Role} {table : String} :
    PreservesSrc (Python.cx_read_sql f role table) := by
  apply psrc_stateless
  intro s
  unfold Python.cx_read_sql
  cases hfr : f.fRead with
  | some m => rfl
  | none =>
      cases hlk : dbLookup (s.1.getDB role) table with
      | none => rfl
      | some t => rfl

theorem psrc_py_ingest_target {f : Faults} {name : String}
    {t : ArrowTable} :
    PreservesSrc (Python.adbc_ingest f .target name t) := by
  intro s
  unfold Python.adbc_ingest
  cases hfi : f.fIngest with
  | some m => exact ⟨rfl, rfl⟩
  | none =>
      cases hin : adbcIngest (s.1.getDB .target) name t with
      | ok db' => exact ⟨rfl, rfl⟩
      | error msg => exact ⟨rfl, rfl⟩

theorem psrc_py_commit {f : Faults} {role : Python.Role} :
    PreservesSrc (Python.commit f role) := by
  intro s
  unfold Python.commit
  cases hfc : f.fCommit with
  | some m => exact ⟨rfl, rfl⟩
  | none => exact ⟨rfl, rfl⟩

theorem psrc_bind_const {x : M Python.World α} {v : α}
    {g : α → M Python.World β} (hx : ∀ s, x s = (s, .ok v))
    (hg : PreservesSrc (g v)) : PreservesSrc (x >>= g) := by
  intro s
  rw [M.bind_def, hx s]
  exact hg s

/-- `/direct-load/` in `src/python` never touches the source database or
the filesystem, on any path (faults and error paths included). -/
theorem psrc_py_copy_table (f : Faults) (data : Python.CopyTableRequest) :
    PreservesSrc (Python.copy_table f data) := by
  unfold Python.copy_table
  apply psrc_tryCatchE
  · unfold Python.copy_table_body
    apply psrc_bind psrc_liftE
    intro source_conn
    apply psrc_bind_const (fun s => rfl)
    apply psrc_bind psrc_py_fetch
    intro table
    apply psrc_bind psrc_py_ingest_target
    intro u
    apply psrc_bind psrc_py_commit
    intro u2
    exact psrc_pure
  · intro e
    apply psrc_bind psrc_emit
    intro u
    exact psrc_throwE

/-- `/copy-tablex/` in `src/python` never touches the source database or
the filesystem either. -/
theorem psrc_py_copy_tablex (f : Faults) (data : Python.CopyTableRequest) :
    PreservesSrc (Python.copy_tablex f data) := by
  unfold Python.copy_tablex
  unfold endpoint
  apply psrc_tryCatchE
  · unfold Python.copy_tablex_body
    apply psrc_bind psrc_getW
    intro w1
    apply psrc_bind
    · apply psrc_ite psrc_pure
      apply psrc_ite psrc_pure psrc_throwE
    · intro u
      apply psrc_bind psrc_py_cx
      intro table
      apply psrc_bind_const (fun s => rfl)
      unfold Python.ingest_to_database
      apply psrc_bind
      · apply psrc_bind psrc_py_ingest_target
        intro u2
        exact psrc_py_commit
      · intro u2
        exact psrc_pure
  · intro e
    exact psrc_throwE

theorem eo_bind_const {P : Event → Prop} {x : M σ α} {v : α}
    {g : α → M σ β} (hx : ∀ s, x s = (s, .ok v))
    (hg : EmitsOnly P (g v)) : EmitsOnly P (x >>= g) := by
  intro s u res h ev hev
  rw [M.bind_def, hx s] at h
  exact hg s u res h ev hev

/-- Every event `/direct-load/` in `src/python` emits is a
target-connection database effect. -/
theorem tde_py_copy_table (f : Faults) (data : Python.CopyTableRequest) :
    EmitsOnly TargetDbEvent (Python.copy_table f data) := by
  unfold Python.copy_table
  apply eo_tryCatchE
  · unfold Python.copy_table_body
    apply eo_bind eo_liftE
    intro source_conn
    apply eo_bind_const (fun s => rfl)
    apply eo_bind eo_py_fetch
    intro table
    apply eo_bind (eo_py_ingest (show TargetDbEvent
      (.ingest Python.Role.target.label data.target_table table) from rfl))
    intro u
    apply eo_bind (eo_py_commit (show TargetDbEvent
      (.commit Python.Role.target.label) from rfl))
    intro u2
    exact eo_pure
  · intro e
    apply eo_bind (eo_emit (show TargetDbEvent
      (.rollback Python.Role.target.label) from rfl))
    intro u
    exact eo_throwE

/-- Every event `/copy-tablex/` in `src/python` emits is a
target-connection database effect. -/
theorem tde_py_copy_tablex (f : Faults) (data : Python.CopyTableRequest) :
    EmitsOnly TargetDbEvent (Python.copy_tablex f data) := by
  unfold Python.copy_tablex
  unfold endpoint
  apply eo_tryCatchE
  · unfold Python.copy_tablex_body
    apply eo_bind eo_getW
    intro w1
    apply eo_bind
    · apply eo_ite eo_pure
      apply eo_ite eo_pure eo_throwE
    · intro u
      apply eo_bind eo_py_cx
      intro table
      apply eo_bind_const (fun s => rfl)
      unfold Python.ingest_to_database
      apply eo_bind
      · apply eo_bind (eo_py_ingest (show TargetDbEvent
          (.ingest Python.Role.target.label data.target_table table) from rfl))
        intro u2
        exact eo_py_commit (show TargetDbEvent
          (.commit Python.Role.target.label) from rfl)
      · intro u2
        exact eo_pure
  · intro e
    exact eo_throwE

/-- The world a run ends in is the world the monadic computation ends
in. -/
theorem runHandler_world (m : M σ α) (w : σ) :
    (runHandler m w).1 = (m (w, [])).1.1 := by
  unfold runHandler
  rcases hm : m (w, []) with ⟨⟨w1, evs1⟩, res⟩
  cases res with
  | ok a => rfl
  | error e => cases e <;> rfl

/-- The trace a run reports is the trace the monadic computation built
up. -/
theorem runHandler_events (m : M σ α) (w : σ) :
    (runHandler m w).2.1 = (m (w, [])).1.2 := by
  unfold runHandler
  rcases hm : m (w, []) with ⟨⟨w1, evs1⟩, res⟩
  cases res with
  | ok a => rfl
  | error e => cases e <;> rfl

/-- From `EmitsOnly P`: every event of a run from scratch satisfies
`P`. -/
theorem events_of_emitsOnly {m : M σ α} (h : EmitsOnly P m) (w : σ) :
    ∀ ev ∈ (runHandler m w).2.1, P ev := by
  intro ev hev
  rw [runHandler_events] at hev
  rcases hm : m (w, []) with ⟨⟨w1, evs1⟩, res⟩
  rw [hm] at hev
  rcases h (w, []) (w1, evs1) res hm ev hev with h1 | h2
  · simp at h1
  · exact h2

theorem app_copy_table_unbound {f : Faults} {data : App.CopyTableRequest}
    {w : App.World} (h1 : data.database ≠ "postgres")
    (h2 : data.database ≠ "sqlite") :
    App.copy_table f data (w, []) = ((w, []),
      .error (.nameError
        "cannot access local variable conn where it is not associated with a value")) ∧
    runHandler (App.copy_table f data) w =
      (w, [], .err 500 "Internal Server Error") := by
  have hC : App.get_connection data.database =
      .error (.valueError "Unsupported database") := by
    unfold App.get_connection
    rw [if_neg h1, if_neg h2]
  have hmain : App.copy_table f data (w, []) = ((w, []),
      .error (.nameError
        "cannot access local variable conn where it is not associated with a value")) := by
    unfold App.copy_table
    rw [hC]
    rfl
  refine ⟨hmain, ?_⟩
  unfold runHandler
  rw [hmain]

theorem app_copy_table_safe {f : Faults} {data : App.CopyTableRequest}
    {w w' : App.World} {evs : List Event} {conn : App.DbId} {e : Exc}
    (hC : App.get_connection data.database = .ok conn)
    (h : App.copy_table f data (w, []) = ((w', evs), .error e)) :
    ∃ d, e = .httpExc 500 d := by
  unfold App.copy_table at h
  rw [hC] at h
  simp only [tryCatchE] at h
  rcases hb : App.copy_table_body f conn data (w, []) with ⟨⟨w1, evs1⟩, res⟩
  rw [hb] at h
  cases res with
  | ok a =>
      exact absurd h (by simp)
  | error e' =>
      refine ⟨strExc e', ?_⟩
      have : (((w1, evs1 ++ [Event.rollback conn.label]) :
          App.World × List Event),
          (.error (.httpExc 500 (strExc e')) : Except Exc App.Resp)) =
          ((w', evs), .error e) := h
      obtain ⟨-, h2⟩ := Prod.mk.injEq .. ▸ this
      simpa using h2.symm

theorem app_fetch_run {conn : App.DbId} {table : String} {w : App.World}
    {evs : List Event} {t : ArrowTable}
    (hlk : dbLookup (w.getDB conn) table = some t) :
    App.fetch_arrow_table noFaults conn table (w, evs) = ((w, evs), .ok t) := by
  unfold App.fetch_arrow_table noFaults
  simp only []
  rw [hlk]

theorem app_cx_run {conn : App.DbId} {table : String} {w : App.World}
    {evs : List Event} {t : ArrowTable}
    (hlk : dbLookup (w.getDB conn) table = some t) :
    App.cx_read_sql noFaults conn table (w, evs) = ((w, evs), .ok t) := by
  unfold App.cx_read_sql noFaults
  simp only []
  rw [hlk]

theorem app_ingest_run {conn : App.DbId} {name : String} {t : ArrowTable}
    {w : App.World} {evs : List Event} {db' : DB}
    (hin : adbcIngest (w.getDB conn) name t = .ok db') :
    App.adbc_ingest noFaults conn name t (w, evs) =
      ((w.setDB conn db', evs ++ [.ingest conn.label name t]), .ok ()) := by
  unfold App.adbc_ingest noFaults
  simp only []
  rw [hin]

theorem app_commit_run {conn : App.DbId} {w : App.World}
    {evs : List Event} :
    App.commit noFaults conn (w, evs) =
      ((w, evs ++ [.commit conn.label]), .ok ()) := by
  unfold App.commit noFaults
  simp only []

theorem app_copy_table_run {data : App.CopyTableRequest} {w : App.World}
    {conn : App.DbId} {t : ArrowTable} {db' : DB}
    (hC : App.get_connection data.database = .ok conn)
    (hlk : dbLookup (w.getDB conn) data.source_table = some t)
    (hin : adbcIngest (w.getDB conn) data.target_table t = .ok db') :
    runHandler (App.copy_table noFaults data) w =
      (w.setDB conn db',
       [.ingest conn.label data.target_table t, .commit conn.label],
       .ok { status := "Table copied successfully",
             metadata := some (App.generate_metadata t) }) := by
  rw [runHandler_ok_iff]
  unfold App.copy_table
  rw [hC]
  simp only [tryCatchE]
  unfold App.copy_table_body
  simp only [M.bind_def]
  rw [app_fetch_run hlk]
  simp only []
  rw [app_ingest_run hin]
  simp only []
  rw [app_commit_run]
  simp only [M.pure_def, List.nil_append]
  rfl

theorem app_copy_tablex_run {data : App.CopyTableRequest} {w : App.World}
    {conn : App.DbId} {t : ArrowTable} {db' : DB}
    (hC : App.get_connection data.database = .ok conn)
    (hlk : dbLookup (w.getDB conn) data.source_table = some t)
    (hin : adbcIngest (w.getDB conn) data.target_table t = .ok db') :
    runHandler (App.copy_tablex noFaults data) w =
      (w.setDB conn db',
       [.ingest conn.label data.target_table t, .commit conn.label],
       .ok { status := "Table copied successfully using ConnectorX",
             metadata := some (App.generate_metadata t) }) := by
  rw [runHandler_ok_iff]
  unfold App.copy_tablex
  rw [endpoint_ok_iff]
  unfold App.copy_tablex_body
  rcases app_get_connection_ok.mp hC with ⟨hdb, hconn⟩ | ⟨hdb, hconn⟩ <;>
    subst hconn
  · rw [hdb]
    rw [if_pos rfl]
    simp only [M.bind_def, M.pure_def]
    rw [app_cx_run hlk]
    simp only [liftE]
    rw [show App.get_connection "postgres" = .ok App.DbId.postgres from rfl]
    simp only []
    unfold App.ingest_to_database
    simp only [M.bind_def]
    rw [app_ingest_run hin]
    simp only []
    rw [app_commit_run]
    simp only [M.pure_def, List.nil_append]
    rfl
  · rw [hdb]
    rw [if_neg (by decide), if_pos rfl]
    simp only [M.bind_def, M.pure_def]
    rw [app_cx_run hlk]
    simp only [liftE]
    rw [show App.get_connection "sqlite" = .ok App.DbId.sqlite from rfl]
    simp only []
    unfold App.ingest_to_database
    simp only [M.bind_def]
    rw [app_ingest_run hin]
    simp only []
    rw [app_commit_run]
    simp only [M.pure_def, List.nil_append]
    rfl

theorem app_write_file_run {path fmt : String} {t : ArrowTable}
    {w : App.World} {evs : List Event} :
    App.write_file noFaults path fmt t (w, evs) =
      (({ w with fs := fsStore w.fs path { format := fmt, table := t } },
        evs ++ [.fileWrite path fmt t]), .ok ()) := by
  unfold App.write_file noFaults
  simp only []

theorem app_write_dataset_run {path fmt : String} {t : ArrowTable}
    {w : App.World} {evs : List Event} :
    App.write_dataset noFaults path fmt t (w, evs) =
      (({ w with fs := fsStore w.fs path { format := fmt, table := t } },
        evs ++ [.datasetWrite path fmt t]), .ok ()) := by
  unfold App.write_dataset noFaults
  simp only []

theorem py_fetch_run {role : Python.Role} {table : String}
    {w : Python.World} {evs : List Event} {t : ArrowTable}
    (hlk : dbLookup (w.getDB role) table = some t) :
    Python.fetch_arrow_table noFaults role table (w, evs) =
      ((w, evs), .ok t) := by
  unfold Python.fetch_arrow_table noFaults
  simp only []
  rw [hlk]

theorem py_write_file_run {path fmt : String} {t : ArrowTable}
    {w : Python.World} {evs : List Event} :
    Python.write_file noFaults path fmt t (w, evs) =
      (({ w with fs := fsStore w.fs path { format := fmt, table := t } },
        evs ++ [.fileWrite path fmt t]), .ok ()) := by
  unfold Python.write_file noFaults
  simp only []

theorem py_write_dataset_run {path fmt : String} {t : ArrowTable}
    {w : Python.World} {evs : List Event} :
    Python.write_dataset noFaults path fmt t (w, evs) =
      (({ w with fs := fsStore w.fs path { format := fmt, table := t } },
        evs ++ [.datasetWrite path fmt t]), .ok ()) := by
  unfold Python.write_dataset noFaults
  simp only []

theorem app_export_data_single_run {p : App.ExportDataRequest}
    {w : App.World} {conn : App.DbId} {t : ArrowTable}
    (hC : App.get_connection p.database = .ok conn)
    (hlk : dbLookup (w.getDB conn) p.table_name = some t)
    (hnp : truthyList p.partitioning = false)
    (hfmt : p.file_format = "parquet" ∨ p.file_format = "feather") :
    runHandler (App.export_data noFaults p) w =
      ({ w with fs := fsStore w.fs (pathJoin w.baseDir p.export_path) ⟨p.file_format, t⟩ },
       [.fileWrite (pathJoin w.baseDir p.export_path) p.file_format t],
       .ok { status := "Table exported to " ++ strUpper p.file_format ++
               " from " ++ strUpper p.database,
             metadata := some (App.generate_metadata t) }) := by
  rw [runHandler_ok_iff]
  unfold App.export_data
  rw [endpoint_ok_iff]
  unfold App.export_data_body
  simp only [M.bind_def, M.pure_def, getW]
  simp only [liftE]
  rw [hC]
  simp only []
  rw [app_fetch_run hlk]
  simp only []
  rw [if_neg (by rw [hnp]; exact Bool.false_ne_true)]
  rcases hfmt with hf | hf
  · rw [if_pos hf]
    rw [app_write_file_run]
    simp only [M.pure_def, List.nil_append]
    rw [hf]
  · rw [if_neg (by rw [hf]; decide), if_pos hf]
    rw [app_write_file_run]
    simp only [M.pure_def, List.nil_append]
    rw [hf]

theorem app_export_data_partitioned_run {p : App.ExportDataRequest}
    {w : App.World} {conn : App.DbId} {t : ArrowTable}
    (hC : App.get_connection p.database = .ok conn)
    (hlk : dbLookup (w.getDB conn) p.table_name = some t)
    (hp : truthyList p.partitioning = true) :
    runHandler (App.export_data noFaults p) w =
      ({ w with fs := fsStore w.fs (pathJoin w.baseDir p.export_path) ⟨p.file_format, t⟩ },
       [.datasetWrite (pathJoin w.baseDir p.export_path) p.file_format t],
       .ok { status := "Table exported to " ++ strUpper p.file_format ++
               " from " ++ strUpper p.database,
             metadata := some (App.generate_metadata t) }) := by
  rw [runHandler_ok_iff]
  unfold App.export_data
  rw [endpoint_ok_iff]
  unfold App.export_data_body
  simp only [M.bind_def, M.pure_def, getW]
  simp only [liftE]
  rw [hC]
  simp only []
  rw [app_fetch_run hlk]
  simp only []
  rw [if_pos hp]
  rw [app_write_dataset_run]
  simp only [M.pure_def, List.nil_append]

theorem app_export_data_csv_run {p : App.ExportDataRequest}
    {w : App.World} {conn : App.DbId} {t : ArrowTable}
    (hC : App.get_connection p.database = .ok conn)
    (hlk : dbLookup (w.getDB conn) p.table_name = some t)
    (hnp : truthyList p.partitioning = false)
    (h1 : p.file_format ≠ "parquet") (h2 : p.file_format ≠ "feather") :
    runHandler (App.export_data noFaults p) w =
      (w, [],
       .ok { status := "Table exported to " ++ strUpper p.file_format ++
               " from " ++ strUpper p.database,
             metadata := some (App.generate_metadata t) }) := by
  rw [runHandler_ok_iff]
  unfold App.export_data
  rw [endpoint_ok_iff]
  unfold App.export_data_body
  simp only [M.bind_def, M.pure_def, getW]
  simp only [liftE]
  rw [hC]
  simp only []
  rw [app_fetch_run hlk]
  simp only []
  rw [if_neg (by rw [hnp]; exact Bool.false_ne_true)]
  rw [if_neg h1, if_neg h2]

theorem py_export_data_single_run {p : Python.ExportDataRequest}
    {w : Python.World} {role : Python.Role} {t : ArrowTable}
    (hC : Python.get_connection p.database_role = .ok role)
    (hlk : dbLookup (w.getDB role) p.table_name = some t)
    (hnp : truthyList p.partitioning = false)
    (hfmt : p.file_format = "parquet" ∨ p.file_format = "feather") :
    runHandler (Python.export_data noFaults p) w =
      ({ w with fs := fsStore w.fs (pathJoin w.baseDir p.export_path) ⟨p.file_format, t⟩ },
       [.fileWrite (pathJoin w.baseDir p.export_path) p.file_format t],
       .ok { status := "Table exported to " ++ strUpper p.file_format ++
               " from " ++ strUpper p.database_role,
             metadata := some (Python.generate_metadata t.schema) }) := by
  rw [runHandler_ok_iff]
  unfold Python.export_data
  rw [endpoint_ok_iff]
  unfold Python.export_data_body
  simp only [M.bind_def, M.pure_def, getW]
  simp only [liftE]
  rw [hC]
  simp only []
  rw [py_fetch_run hlk]
  simp only []
  rw [if_neg (by rw [hnp]; exact Bool.false_ne_true)]
  rcases hfmt with hf | hf
  · rw [if_pos hf]
    rw [py_write_file_run]
    simp only [M.pure_def, List.nil_append]
    rw [hf]
  · rw [if_neg (by rw [hf]; decide), if_pos hf]
    rw [py_write_file_run]
    simp only [M.pure_def, List.nil_append]
    rw [hf]

theorem py_export_data_partitioned_run {p : Python.ExportDataRequest}
    {w : Python.World} {role : Python.Role} {t : ArrowTable}
    (hC : Python.get_connection p.database_role = .ok role)
    (hlk : dbLookup (w.getDB role) p.table_name = some t)
    (hp : truthyList p.partitioning = true) :
    runHandler (Python.export_data noFaults p) w =
      ({ w with fs := fsStore w.fs (pathJoin w.baseDir p.export_path) ⟨p.file_format, t⟩ },
       [.datasetWrite (pathJoin w.baseDir p.export_path) p.file_format t],
       .ok { status := "Table exported to " ++ strUpper p.file_format ++
               " from " ++ strUpper p.database_role,
             metadata := some (Python.generate_metadata t.schema) }) := by
  rw [runHandler_ok_iff]
  unfold Python.export_data
  rw [endpoint_ok_iff]
  unfold Python.export_data_body
  simp only [M.bind_def, M.pure_def, getW]
  simp only [liftE]
  rw [hC]
  simp only []
  rw [py_fetch_run hlk]
  simp only []
  rw [if_pos hp]
  rw [py_write_dataset_run]
  simp only [M.pure_def, List.nil_append]

theorem py_export_data_csv_run {p : Python.ExportDataRequest}
    {w : Python.World} {role : Python.Role} {t : ArrowTable}
    (hC : Python.get_connection p.database_role = .ok role)
    (hlk : dbLookup (w.getDB role) p.table_name = some t)
    (hnp : truthyList p.partitioning = false)
    (h1 : p.file_format ≠ "parquet") (h2 : p.file_format ≠ "feather") :
    runHandler (Python.export_data noFaults p) w =
      (w, [],
       .ok { status := "Table exported to " ++ strUpper p.file_format ++
               " from " ++ strUpper p.database_role,
             metadata := some (Python.generate_metadata t.schema) }) := by
  rw [runHandler_ok_iff]
  unfold Python.export_data
  rw [endpoint_ok_iff]
  unfold Python.export_data_body
  simp only [M.bind_def, M.pure_def, getW]
  simp only [liftE]
  rw [hC]
  simp only []
  rw [py_fetch_run hlk]
  simp only []
  rw [if_neg (by rw [hnp]; exact Bool.false_ne_true)]
  rw [if_neg h1, if_neg h2]

theorem app_load_data_ignores_local_path (f : Faults)
    (p : App.LoadDataRequest) (hdir : truthyStr p.directory = true) :
    App.load_data f p = App.load_data f { p with local_path := none } := by
  unfold App.load_data App.load_data_body
  simp [hdir]

theorem py_load_data_ignores_directory (f : Faults)
    (p : Python.LoadDataRequest) (hloc : truthyStr p.local_path = true) :
    Python.load_data f p = Python.load_data f { p with directory := none } := by
  unfold Python.load_data Python.load_data_body
  simp [hloc]

/-! ## Claims -/

/-- C6: connection resolution.  `src/app.py`'s `get_connection` returns
the PostgreSQL connection for `"postgres"` and the SQLite connection
for `"sqlite"`; `src/python`'s returns the source connection for
`"source"` and the target connection for `"target"`; each raises
`ValueError` for every other string, so no handler proceeds past
resolution with an unrecognised identifier. -/
theorem C6_connection_resolution :
    App.get_connection "postgres" = .ok .postgres ∧
    App.get_connection "sqlite" = .ok .sqlite ∧
    (∀ s, s ≠ "postgres" → s ≠ "sqlite" →
      App.get_connection s = .error (.valueError "Unsupported database")) ∧
    Python.get_connection "source" = .ok .source ∧
    Python.get_connection "target" = .ok .target ∧
    (∀ s, s ≠ "source" → s ≠ "target" →
      Python.get_connection s =
        .error (.valueError "Invalid database role. Use source or target.")) := by
  refine ⟨rfl, rfl, ?_, rfl, rfl, ?_⟩
  · intro s h1 h2
    unfold App.get_connection
    rw [if_neg h1, if_neg h2]
  · intro s h1 h2
    unfold Python.get_connection
    rw [if_neg h1, if_neg h2]

/-- C6 witness: at the concrete unrecognised identifier `"mysql"` both
resolvers raise `ValueError`. -/
theorem C6_witness :
    App.get_connection "mysql" =
      .error (.valueError "Unsupported database") ∧
    Python.get_connection "mysql" =
      .error (.valueError "Invalid database role. Use source or target.") :=
  ⟨C6_connection_resolution.2.2.1 "mysql" (by decide) (by decide),
   C6_connection_resolution.2.2.2.2.2 "mysql" (by decide) (by decide)⟩

/-- C7 counterexample: the `src/python` `CopyTableRequest` model has no
database role/identifier field at all, contradicting the claim that the
copy-table body contains one in both versions. -/
theorem C7_counterexample :
    "database" ∉ Python.copyTableRequestFields ∧
    "database_role" ∉ Python.copyTableRequestFields := by
  decide

/-- C7 (amended): the load and export request bodies of both versions
carry the contract's fields (table name, source location or export
path, file format, optional partitioning, and a database identifier or
role); the copy-table body carries a `database` field in `src/app.py`
but in `src/python` consists of the two table names only. -/
theorem C7_request_fields :
    "table_name" ∈ App.loadDataRequestFields ∧
    "local_path" ∈ App.loadDataRequestFields ∧
    "directory" ∈ App.loadDataRequestFields ∧
    "file_format" ∈ App.loadDataRequestFields ∧
    "partitioning" ∈ App.loadDataRequestFields ∧
    "database" ∈ App.loadDataRequestFields ∧
    "table_name" ∈ App.exportDataRequestFields ∧
    "export_path" ∈ App.exportDataRequestFields ∧
    "file_format" ∈ App.exportDataRequestFields ∧
    "partitioning" ∈ App.exportDataRequestFields ∧
    "database" ∈ App.exportDataRequestFields ∧
    "table_name" ∈ Python.loadDataRequestFields ∧
    "local_path" ∈ Python.loadDataRequestFields ∧
    "directory" ∈ Python.loadDataRequestFields ∧
    "file_format" ∈ Python.loadDataRequestFields ∧
    "partitioning" ∈ Python.loadDataRequestFields ∧
    "database_role" ∈ Python.loadDataRequestFields ∧
    "table_name" ∈ Python.exportDataRequestFields ∧
    "export_path" ∈ Python.exportDataRequestFields ∧
    "file_format" ∈ Python.exportDataRequestFields ∧
    "partitioning" ∈ Python.exportDataRequestFields ∧
    "database_role" ∈ Python.exportDataRequestFields ∧
    "database" ∈ App.copyTableRequestFields ∧
    Python.copyTableRequestFields = ["source_table", "target_table"] := by
  decide

/-- C8: in `src/app.py`'s `/direct-load/` handler, an unrecognised
database identifier makes `get_connection` raise before `conn` is
bound; the `except` branch's `conn.rollback()` then raises `NameError`,
which escapes to the framework's generic 500.  When `get_connection`
succeeded, every exception leaving the handler is the
`HTTPException(500, str(e))` it raises itself — the error path is only
safe under that precondition. -/
theorem C8_unbound_conn :
    (∀ (f : Faults) (data : App.CopyTableRequest) (w : App.World),
      data.database ≠ "postgres" → data.database ≠ "sqlite" →
      App.copy_table f data (w, []) = ((w, []),
        .error (.nameError
          "cannot access local variable conn where it is not associated with a value")) ∧
      runHandler (App.copy_table f data) w =
        (w, [], .err 500 "Internal Server Error")) ∧
    (∀ (f : Faults) (data : App.CopyTableRequest) (w w' : App.World)
      (evs : List Event) (conn : App.DbId) (e : Exc),
      App.get_connection data.database = .ok conn →
      App.copy_table f data (w, []) = ((w', evs), .error e) →
      ∃ d, e = .httpExc 500 d) :=
  ⟨fun _ _ _ h1 h2 => app_copy_table_unbound h1 h2,
   fun _ _ _ _ _ _ _ hC h => app_copy_table_safe hC h⟩

/-- C8 witness: the concrete `"mysql"` copy request raises the
`NameError` and the client sees the generic 500. -/
theorem C8_witness :
    App.copy_table noFaults badCopyReq (wApp, []) = ((wApp, []),
      .error (.nameError
        "cannot access local variable conn where it is not associated with a value")) ∧
    runHandler (App.copy_table noFaults badCopyReq) wApp =
      (wApp, [], .err 500 "Internal Server Error") :=
  C8_unbound_conn.1 noFaults badCopyReq wApp (by decide) (by decide)

/-- C10 counterexample: in `src/python`, a load request carrying BOTH
`local_path` and `directory` ingests the table of the parquet FILE at
`local_path` (`tblA`), not the table of the dataset directory (`tblB`):
`local_path`, not `directory`, takes precedence there. -/
theorem C10_counterexample :
    (runHandler (Python.load_data noFaults pyBothReq) wPy).1.targetDB =
      [("t1", tblA)] ∧
    fsLookup wPy.fs (pathJoin wPy.baseDir "dir1") =
      some ⟨"parquet", tblB⟩ ∧
    tblA ≠ tblB :=
  ⟨rfl, rfl, by decide⟩

/-- C10 (amended): when both locations are supplied, `src/app.py`'s
`/load-data/` reads the `directory` and ignores `local_path` entirely,
while `src/python`'s reads `local_path` and ignores `directory`
entirely (its single-file branch is tested first). -/
theorem C10_precedence :
    (∀ (f : Faults) (p : App.LoadDataRequest),
      truthyStr p.directory = true →
      App.load_data f p = App.load_data f { p with local_path := none }) ∧
    (∀ (f : Faults) (p : Python.LoadDataRequest),
      truthyStr p.local_path = true →
      Python.load_data f p =
        Python.load_data f { p with directory := none }) :=
  ⟨app_load_data_ignores_local_path, py_load_data_ignores_directory⟩

/-- C10 witness: at the concrete requests with both fields set, each
handler equals its run on the request with the ignored field removed. -/
theorem C10_witness :
    App.load_data noFaults appBothReq =
      App.load_data noFaults { appBothReq with local_path := none } ∧
    Python.load_data noFaults pyBothReq =
      Python.load_data noFaults { pyBothReq with directory := none } :=
  ⟨C10_precedence.1 noFaults appBothReq (by decide),
   C10_precedence.2 noFaults pyBothReq (by decide)⟩

/-- C9: in `src/python` the copy direction is fixed: `/direct-load/`
and `/copy-tablex/` read from the configured source connection and, on
every path (success, library fault, or error handling), leave the
source database and the filesystem untouched and perform database
effects — ingest, commit, rollback — only against the target
connection. -/
theorem C9_fixed_direction :
    (∀ (f : Faults) (data : Python.CopyTableRequest) (w : Python.World),
      (runHandler (Python.copy_table f data) w).1.sourceDB = w.sourceDB ∧
      (runHandler (Python.copy_table f data) w).1.fs = w.fs ∧
      ∀ ev ∈ (runHandler (Python.copy_table f data) w).2.1,
        TargetDbEvent ev) ∧
    (∀ (f : Faults) (data : Python.CopyTableRequest) (w : Python.World),
      (runHandler (Python.copy_tablex f data) w).1.sourceDB = w.sourceDB ∧
      (runHandler (Python.copy_tablex f data) w).1.fs = w.fs ∧
      ∀ ev ∈ (runHandler (Python.copy_tablex f data) w).2.1,
        TargetDbEvent ev) := by
  constructor
  · intro f data w
    refine ⟨?_, ?_, events_of_emitsOnly (tde_py_copy_table f data) w⟩
    · rw [runHandler_world]
      exact (psrc_py_copy_table f data (w, [])).1
    · rw [runHandler_world]
      exact (psrc_py_copy_table f data (w, [])).2
  · intro f data w
    refine ⟨?_, ?_, events_of_emitsOnly (tde_py_copy_tablex f data) w⟩
    · rw [runHandler_world]
      exact (psrc_py_copy_tablex f data (w, [])).1
    · rw [runHandler_world]
      exact (psrc_py_copy_tablex f data (w, [])).2

/-- C9 witness: on the concrete copy request, the first event of the
run is the target-connection ingest, and the theorem shows it is a
target-only effect. -/
theorem C9_witness :
    TargetDbEvent (Event.ingest "target" "dst" tblA) :=
  (C9_fixed_direction.1 noFaults pyCopyReq wPy).2.2
    (Event.ingest "target" "dst" tblA) (by decide)

/-- C3: on a request the two `src/app.py` copy strategies both accept
(`database` resolves, the source table exists, ingestion succeeds, no
library fault), `/direct-load/` and `/copy-tablex/` append the same
rows with the same schema to the same target table of the same
database, produce identical traces and final worlds, and report the
same metadata; only the human-readable status differs. -/
theorem C3_copy_equivalence {data : App.CopyTableRequest} {w : App.World}
    {conn : App.DbId} {t : ArrowTable} {db' : DB}
    (hC : App.get_connection data.database = .ok conn)
    (hlk : dbLookup (w.getDB conn) data.source_table = some t)
    (hin : adbcIngest (w.getDB conn) data.target_table t = .ok db') :
    runHandler (App.copy_table noFaults data) w =
      (w.setDB conn db',
       [.ingest conn.label data.target_table t, .commit conn.label],
       .ok { status := "Table copied successfully",
             metadata := some (App.generate_metadata t) }) ∧
    runHandler (App.copy_tablex noFaults data) w =
      (w.setDB conn db',
       [.ingest conn.label data.target_table t, .commit conn.label],
       .ok { status := "Table copied successfully using ConnectorX",
             metadata := some (App.generate_metadata t) }) :=
  ⟨app_copy_table_run hC hlk hin, app_copy_tablex_run hC hlk hin⟩

/-- C3 witness: the equivalence at the concrete PostgreSQL copy request
`src → dst` on the concrete world. -/
theorem C3_witness :
    runHandler (App.copy_table noFaults goodCopyReq) wApp =
      (wApp.setDB .postgres (("dst", tblA) :: wApp.pg),
       [.ingest "postgres" "dst" tblA, .commit "postgres"],
       .ok { status := "Table copied successfully",
             metadata := some (App.generate_metadata tblA) }) ∧
    runHandler (App.copy_tablex noFaults goodCopyReq) wApp =
      (wApp.setDB .postgres (("dst", tblA) :: wApp.pg),
       [.ingest "postgres" "dst" tblA, .commit "postgres"],
       .ok { status := "Table copied successfully using ConnectorX",
             metadata := some (App.generate_metadata tblA) }) :=
  @C3_copy_equivalence goodCopyReq wApp App.DbId.postgres tblA
    (("dst", tblA) :: wApp.pg) rfl rfl rfl

/-- C4 counterexample: an unpartitioned CSV export request succeeds
(full envelope, metadata included) yet writes nothing: the run leaves
the world unchanged, produces no write event, and no file exists at the
export path. -/
theorem C4_counterexample :
    runHandler (App.export_data noFaults appCsvExportReq) wApp =
      (wApp, [],
       .ok { status := "Table exported to CSV from POSTGRES",
             metadata := some (App.generate_metadata tblA) }) ∧
    fsLookup wApp.fs (pathJoin wApp.baseDir appCsvExportReq.export_path) =
      none :=
  ⟨rfl, rfl⟩

/-- C4 (amended): `/export-data/` (both versions) writes the fetched
table to the export path before returning success when the format is
parquet or feather (single file) or when a partitioning list is given
(dataset, any format); but an unpartitioned request with any other
format — csv included — writes nothing at all and still returns the
success envelope. -/
theorem C4_export_write :
    (∀ (p : App.ExportDataRequest) (w : App.World) (conn : App.DbId)
      (t : ArrowTable),
      App.get_connection p.database = .ok conn →
      dbLookup (w.getDB conn) p.table_name = some t →
      truthyList p.partitioning = false →
      p.file_format = "parquet" ∨ p.file_format = "feather" →
      runHandler (App.export_data noFaults p) w =
        ({ w with fs := fsStore w.fs (pathJoin w.baseDir p.export_path) ⟨p.file_format, t⟩ },
         [.fileWrite (pathJoin w.baseDir p.export_path) p.file_format t],
         .ok { status := "Table exported to " ++ strUpper p.file_format ++
                 " from " ++ strUpper p.database,
               metadata := some (App.generate_metadata t) })) ∧
    (∀ (p : App.ExportDataRequest) (w : App.World) (conn : App.DbId)
      (t : ArrowTable),
      App.get_connection p.database = .ok conn →
      dbLookup (w.getDB conn) p.table_name = some t →
      truthyList p.partitioning = true →
      runHandler (App.export_data noFaults p) w =
        ({ w with fs := fsStore w.fs (pathJoin w.baseDir p.export_path) ⟨p.file_format, t⟩ },
         [.datasetWrite (pathJoin w.baseDir p.export_path) p.file_format t],
         .ok { status := "Table exported to " ++ strUpper p.file_format ++
                 " from " ++ strUpper p.database,
               metadata := some (App.generate_metadata t) })) ∧
    (∀ (p : App.ExportDataRequest) (w : App.World) (conn : App.DbId)
      (t : ArrowTable),
      App.get_connection p.database = .ok conn →
      dbLookup (w.getDB conn) p.table_name = some t →
      truthyList p.partitioning = false →
      p.file_format ≠ "parquet" → p.file_format ≠ "feather" →
      runHandler (App.export_data noFaults p) w =
        (w, [],
         .ok { status := "Table exported to " ++ strUpper p.file_format ++
                 " from " ++ strUpper p.database,
               metadata := some (App.generate_metadata t) })) ∧
    (∀ (p : Python.ExportDataRequest) (w : Python.World)
      (role : Python.Role) (t : ArrowTable),
      Python.get_connection p.database_role = .ok role →
      dbLookup (w.getDB role) p.table_name = some t →
      truthyList p.partitioning = false →
      p.file_format = "parquet" ∨ p.file_format = "feather" →
      runHandler (Python.export_data noFaults p) w =
        ({ w with fs := fsStore w.fs (pathJoin w.baseDir p.export_path) ⟨p.file_format, t⟩ },
         [.fileWrite (pathJoin w.baseDir p.export_path) p.file_format t],
         .ok { status := "Table exported to " ++ strUpper p.file_format ++
                 " from " ++ strUpper p.database_role,
               metadata := some (Python.generate_metadata t.schema) })) ∧
    (∀ (p : Python.ExportDataRequest) (w : Python.World)
      (role : Python.Role) (t : ArrowTable),
      Python.get_connection p.database_role = .ok role →
      dbLookup (w.getDB role) p.table_name = some t →
      truthyList p.partitioning = true →
      runHandler (Python.export_data noFaults p) w =
        ({ w with fs := fsStore w.fs (pathJoin w.baseDir p.export_path) ⟨p.file_format, t⟩ },
         [.datasetWrite (pathJoin w.baseDir p.export_path) p.file_format t],
         .ok { status := "Table exported to " ++ strUpper p.file_format ++
                 " from " ++ strUpper p.database_role,
               metadata := some (Python.generate_metadata t.schema) })) ∧
    (∀ (p : Python.ExportDataRequest) (w : Python.World)
      (role : Python.Role) (t : ArrowTable),
      Python.get_connection p.database_role = .ok role →
      dbLookup (w.getDB role) p.table_name = some t →
      truthyList p.partitioning = false →
      p.file_format ≠ "parquet" → p.file_format ≠ "feather" →
      runHandler (Python.export_data noFaults p) w =
        (w, [],
         .ok { status := "Table exported to " ++ strUpper p.file_format ++
                 " from " ++ strUpper p.database_role,
               metadata := some (Python.generate_metadata t.schema) })) :=
  ⟨fun _ _ _ _ hC hlk hnp hf => app_export_data_single_run hC hlk hnp hf,
   fun _ _ _ _ hC hlk hp => app_export_data_partitioned_run hC hlk hp,
   fun _ _ _ _ hC hlk hnp h1 h2 => app_export_data_csv_run hC hlk hnp h1 h2,
   fun _ _ _ _ hC hlk hnp hf => py_export_data_single_run hC hlk hnp hf,
   fun _ _ _ _ hC hlk hp => py_export_data_partitioned_run hC hlk hp,
   fun _ _ _ _ hC hlk hnp h1 h2 => py_export_data_csv_run hC hlk hnp h1 h2⟩

/-- C4 witness: a concrete unpartitioned parquet export writes the file
(and a concrete unpartitioned csv export writes nothing). -/
theorem C4_witness :
    runHandler (App.export_data noFaults appExportReq) wApp =
      ({ wApp with fs := fsStore wApp.fs (pathJoin wApp.baseDir "out.parquet") ⟨"parquet", tblA⟩ },
       [.fileWrite (pathJoin wApp.baseDir "out.parquet") "parquet" tblA],
       .ok { status := "Table exported to PARQUET from POSTGRES",
             metadata := some (App.generate_metadata tblA) }) ∧
    runHandler (App.export_data noFaults appCsvExportReq) wApp =
      (wApp, [],
       .ok { status := "Table exported to CSV from POSTGRES",
             metadata := some (App.generate_metadata tblA) }) :=
  ⟨C4_export_write.1 appExportReq wApp .postgres tblA rfl rfl rfl (.inl rfl),
   C4_export_write.2.2.1 appCsvExportReq wApp .postgres tblA rfl rfl rfl
     (by decide) (by decide)⟩

theorem py_copy_table_rollback_on_error {f : Faults}
    {data : Python.CopyTableRequest} {w w' : Python.World}
    {evs : List Event} {st : Nat} {dt : String}
    (h : runHandler (Python.copy_table f data) w = (w', evs, .err st dt)) :
    Event.rollback "target" ∈ evs := by
  rcases rollbackCatch_outcome (Python.copy_table_body f data) "target" w
    with ⟨w1, evs1, r, heq⟩ | ⟨w1, evs1, e, hb, heq⟩
  · have heq' : runHandler (Python.copy_table f data) w =
        (w1, evs1, .ok r) := heq
    rw [heq'] at h
    exact absurd h (by simp)
  · have heq' : runHandler (Python.copy_table f data) w =
        (w1, evs1 ++ [.rollback "target"], .err 500 (strExc e)) := heq
    rw [heq'] at h
    obtain ⟨h1, h23⟩ := Prod.mk.injEq .. ▸ h
    obtain ⟨h2, h3⟩ := Prod.mk.injEq .. ▸ h23
    rw [← h2]
    simp

theorem app_copy_table_rollback_on_error {f : Faults}
    {data : App.CopyTableRequest} {w w' : App.World} {evs : List Event}
    {st : Nat} {dt : String} {conn : App.DbId}
    (hC : App.get_connection data.database = .ok conn)
    (h : runHandler (App.copy_table f data) w = (w', evs, .err st dt)) :
    Event.rollback conn.label ∈ evs := by
  have heq0 : App.copy_table f data =
      tryCatchE (App.copy_table_body f conn data) (fun e => do
        emit (.rollback conn.label)
        throwE (.httpExc 500 (strExc e))) := by
    unfold App.copy_table
    rw [hC]
  rw [heq0] at h
  rcases rollbackCatch_outcome (App.copy_table_body f conn data)
      conn.label w with ⟨w1, evs1, r, heq⟩ | ⟨w1, evs1, e, hb, heq⟩
  · rw [heq] at h
    exact absurd h (by simp)
  · rw [heq] at h
    obtain ⟨h1, h23⟩ := Prod.mk.injEq .. ▸ h
    obtain ⟨h2, h3⟩ := Prod.mk.injEq .. ▸ h23
    rw [← h2]
    simp

/-- C5 counterexample: a failing `/direct-load/` request in `src/app.py`
— the source table is missing — DOES issue a compensating database
operation on the error path: its trace is exactly one rollback. -/
theorem C5_counterexample :
    runHandler (App.copy_table noFaults missingCopyReq) wApp =
      (wApp, [.rollback "postgres"], .err 500 "no such table: missing") :=
  rfl

/-- C5 (amended): no endpoint performs any recovery beyond re-raising —
the `except` branch leaves the world and trace exactly as the failing
body left them — and no endpoint except the two `/direct-load/` copy
handlers ever issues a rollback (on any path); those two, and only
those, roll back their connection on every error path reached with the
connection bound. -/
theorem C5_no_recovery :
    (∀ (f : Faults) (p : App.LoadDataRequest) (w : App.World) (d : String),
      Event.rollback d ∉ (runHandler (App.load_data f p) w).2.1) ∧
    (∀ (f : Faults) (p : App.ExportDataRequest) (w : App.World) (d : String),
      Event.rollback d ∉ (runHandler (App.export_data f p) w).2.1) ∧
    (∀ (f : Faults) (p : App.ExportDataRequest) (w : App.World) (d : String),
      Event.rollback d ∉ (runHandler (App.export_connectorx f p) w).2.1) ∧
    (∀ (f : Faults) (data : App.CopyTableRequest) (w : App.World) (d : String),
      Event.rollback d ∉ (runHandler (App.copy_tablex f data) w).2.1) ∧
    (∀ (f : Faults) (p : App.ExportDataRequest) (w : App.World) (d : String),
      Event.rollback d ∉ (runHandler (App.export_pgeon f p) w).2.1) ∧
    (∀ (f : Faults) (w : App.World) (d : String),
      Event.rollback d ∉ (runHandler (App.generate_test_data f) w).2.1) ∧
    (∀ (f : Faults) (p : Python.LoadDataRequest) (w : Python.World) (d : String),
      Event.rollback d ∉ (runHandler (Python.load_data f p) w).2.1) ∧
    (∀ (f : Faults) (p : Python.ExportDataRequest) (w : Python.World) (d : String),
      Event.rollback d ∉ (runHandler (Python.export_data f p) w).2.1) ∧
    (∀ (f : Faults) (p : Python.ExportDataRequest) (w : Python.World) (d : String),
      Event.rollback d ∉ (runHandler (Python.export_connectorx f p) w).2.1) ∧
    (∀ (f : Faults) (data : Python.CopyTableRequest) (w : Python.World) (d : String),
      Event.rollback d ∉ (runHandler (Python.copy_tablex f data) w).2.1) ∧
    (∀ (f : Faults) (p : Python.ExportDataRequest) (w : Python.World) (d : String),
      Event.rollback d ∉ (runHandler (Python.export_pgeon f p) w).2.1) ∧
    (∀ (f : Faults) (w : Python.World) (d : String),
      Event.rollback d ∉ (runHandler (Python.generate_test_data f) w).2.1) ∧
    (∀ (f : Faults) (p : App.LoadDataRequest) (s : App.World × List Event),
      (App.load_data f p s).1 = (App.load_data_body f p s).1) ∧
    (∀ (f : Faults) (p : App.ExportDataRequest) (s : App.World × List Event),
      (App.export_data f p s).1 = (App.export_data_body f p s).1) ∧
    (∀ (f : Faults) (p : App.ExportDataRequest) (s : App.World × List Event),
      (App.export_connectorx f p s).1 = (App.export_connectorx_body f p s).1) ∧
    (∀ (f : Faults) (data : App.CopyTableRequest) (s : App.World × List Event),
      (App.copy_tablex f data s).1 = (App.copy_tablex_body f data s).1) ∧
    (∀ (f : Faults) (p : App.ExportDataRequest) (s : App.World × List Event),
      (App.export_pgeon f p s).1 = (App.export_pgeon_body f p s).1) ∧
    (∀ (f : Faults) (s : App.World × List Event),
      (App.generate_test_data f s).1 = (App.generate_test_data_body f s).1) ∧
    (∀ (f : Faults) (p : Python.LoadDataRequest) (s : Python.World × List Event),
      (Python.load_data f p s).1 = (Python.load_data_body f p s).1) ∧
    (∀ (f : Faults) (p : Python.ExportDataRequest) (s : Python.World × List Event),
      (Python.export_data f p s).1 = (Python.export_data_body f p s).1) ∧
    (∀ (f : Faults) (p : Python.ExportDataRequest) (s : Python.World × List Event),
      (Python.export_connectorx f p s).1 = (Python.export_connectorx_body f p s).1) ∧
    (∀ (f : Faults) (data : Python.CopyTableRequest) (s : Python.World × List Event),
      (Python.copy_tablex f data s).1 = (Python.copy_tablex_body f data s).1) ∧
    (∀ (f : Faults) (p : Python.ExportDataRequest) (s : Python.World × List Event),
      (Python.export_pgeon f p s).1 = (Python.export_pgeon_body f p s).1) ∧
    (∀ (f : Faults) (s : Python.World × List Event),
      (Python.generate_test_data f s).1 = (Python.generate_test_data_body f s).1) ∧
    (∀ (f : Faults) (data : Python.CopyTableRequest)
      (s : Python.World × List Event),
      ((Python.copy_table f data) s).1.1 =
        ((Python.copy_table_body f data) s).1.1) ∧
    (∀ (f : Faults) (data : Python.CopyTableRequest) (w w' : Python.World)
      (evs : List Event) (st : Nat) (dt : String),
      runHandler (Python.copy_table f data) w = (w', evs, .err st dt) →
      Event.rollback "target" ∈ evs) ∧
    (∀ (f : Faults) (data : App.CopyTableRequest) (w w' : App.World)
      (evs : List Event) (st : Nat) (dt : String) (conn : App.DbId),
      App.get_connection data.database = .ok conn →
      runHandler (App.copy_table f data) w = (w', evs, .err st dt) →
      Event.rollback conn.label ∈ evs) :=
  ⟨fun f p w d => no_rollback_of_emitsOnly (norb_app_load_data f p) w d,
   fun f p w d => no_rollback_of_emitsOnly (norb_app_export_data f p) w d,
   fun f p w d => no_rollback_of_emitsOnly (norb_app_export_connectorx f p) w d,
   fun f data w d => no_rollback_of_emitsOnly (norb_app_copy_tablex f data) w d,
   fun f p w d => no_rollback_of_emitsOnly (norb_app_export_pgeon f p) w d,
   fun f w d => no_rollback_of_emitsOnly (norb_app_generate_test_data f) w d,
   fun f p w d => no_rollback_of_emitsOnly (norb_py_load_data f p) w d,
   fun f p w d => no_rollback_of_emitsOnly (norb_py_export_data f p) w d,
   fun f p w d => no_rollback_of_emitsOnly (norb_py_export_connectorx f p) w d,
   fun f data w d => no_rollback_of_emitsOnly (norb_py_copy_tablex f data) w d,
   fun f p w d => no_rollback_of_emitsOnly (norb_py_export_pgeon f p) w d,
   fun f w d => no_rollback_of_emitsOnly (norb_py_generate_test_data f) w d,
   fun f p s => endpoint_state (App.load_data_body f p) s,
   fun f p s => endpoint_state (App.export_data_body f p) s,
   fun f p s => endpoint_state (App.export_connectorx_body f p) s,
   fun f data s => endpoint_state (App.copy_tablex_body f data) s,
   fun f p s => endpoint_state (App.export_pgeon_body f p) s,
   fun f s => endpoint_state (App.generate_test_data_body f) s,
   fun f p s => endpoint_state (Python.load_data_body f p) s,
   fun f p s => endpoint_state (Python.export_data_body f p) s,
   fun f p s => endpoint_state (Python.export_connectorx_body f p) s,
   fun f data s => endpoint_state (Python.copy_tablex_body f data) s,
   fun f p s => endpoint_state (Python.export_pgeon_body f p) s,
   fun f s => endpoint_state (Python.generate_test_data_body f) s,
   fun f data s => rollbackCatch_state (Python.copy_table_body f data)
     "target" s,
   fun f data w w' evs st dt h => py_copy_table_rollback_on_error h,
   fun f data w w' evs st dt conn hC h =>
     app_copy_table_rollback_on_error hC h⟩

/-- C5 witness: the failing concrete `/direct-load/` run rolls back its
connection. -/
theorem C5_witness :
    Event.rollback "postgres" ∈
      (runHandler (App.copy_table noFaults missingCopyReq) wApp).2.1 :=
  C5_no_recovery.2.2.2.2.2.2.2.2.2.2.2.2.2.2.2.2.2.2.2.2.2.2.2.2.2.2
    noFaults missingCopyReq wApp wApp [.rollback "postgres"] 500
    "no such table: missing" .postgres rfl rfl

/-- C2 counterexample: a request to `/direct-load/` with an unsupported
database identifier raises `ValueError("Unsupported database")` inside
the handler, but the client does NOT receive a 500 whose detail is that
exception's text — the `except` branch dies with `NameError` (the
unbound `conn`) and the framework returns the generic
`Internal Server Error`. -/
theorem C2_counterexample :
    runHandler (App.copy_table noFaults badCopyReq) wApp =
      (wApp, [], .err 500 "Internal Server Error") ∧
    strExc (.valueError "Unsupported database") ≠ "Internal Server Error" :=
  ⟨rfl, by decide⟩

/-- C2 (amended): every endpoint of both apps converts any exception
`e` its body raises — handler-raised 400 `HTTPException`s included —
into an HTTP 500 whose detail is `str(e)`, EXCEPT `src/app.py`'s
`/direct-load/` when the exception precedes the binding of `conn`
(unsupported database identifier): there the `except` branch's
`conn.rollback()` raises `NameError`, which escapes un-caught, and the
client receives the framework's generic 500 instead of the exception's
text.  With `conn` bound, `/direct-load/` also converts to a 500 with
`str(e)`, rolling back first. -/
theorem C2_error_conversion :
    (∀ (f : Faults) (p : App.LoadDataRequest) (w : App.World),
      conv500 (App.load_data f p) (App.load_data_body f p) w) ∧
    (∀ (f : Faults) (p : App.ExportDataRequest) (w : App.World),
      conv500 (App.export_data f p) (App.export_data_body f p) w) ∧
    (∀ (f : Faults) (p : App.ExportDataRequest) (w : App.World),
      conv500 (App.export_connectorx f p) (App.export_connectorx_body f p) w) ∧
    (∀ (f : Faults) (data : App.CopyTableRequest) (w : App.World),
      conv500 (App.copy_tablex f data) (App.copy_tablex_body f data) w) ∧
    (∀ (f : Faults) (p : App.ExportDataRequest) (w : App.World),
      conv500 (App.export_pgeon f p) (App.export_pgeon_body f p) w) ∧
    (∀ (f : Faults) (w : App.World),
      conv500 (App.generate_test_data f) (App.generate_test_data_body f) w) ∧
    (∀ (f : Faults) (p : Python.LoadDataRequest) (w : Python.World),
      conv500 (Python.load_data f p) (Python.load_data_body f p) w) ∧
    (∀ (f : Faults) (p : Python.ExportDataRequest) (w : Python.World),
      conv500 (Python.export_data f p) (Python.export_data_body f p) w) ∧
    (∀ (f : Faults) (p : Python.ExportDataRequest) (w : Python.World),
      conv500 (Python.export_connectorx f p)
        (Python.export_connectorx_body f p) w) ∧
    (∀ (f : Faults) (data : Python.CopyTableRequest) (w : Python.World),
      conv500 (Python.copy_tablex f data) (Python.copy_tablex_body f data) w) ∧
    (∀ (f : Faults) (p : Python.ExportDataRequest) (w : Python.World),
      conv500 (Python.export_pgeon f p) (Python.export_pgeon_body f p) w) ∧
    (∀ (f : Faults) (w : Python.World),
      conv500 (Python.generate_test_data f)
        (Python.generate_test_data_body f) w) ∧
    (∀ (f : Faults) (data : Python.CopyTableRequest) (w : Python.World),
      conv500rb (Python.copy_table f data) (Python.copy_table_body f data)
        "target" w) ∧
    (∀ (f : Faults) (data : App.CopyTableRequest) (w : App.World)
      (conn : App.DbId),
      App.get_connection data.database = .ok conn →
      conv500rb (App.copy_table f data) (App.copy_table_body f conn data)
        conn.label w) ∧
    (∀ (f : Faults) (data : App.CopyTableRequest) (w : App.World),
      data.database ≠ "postgres" → data.database ≠ "sqlite" →
      runHandler (App.copy_table f data) w =
        (w, [], .err 500 "Internal Server Error")) := by
  refine ⟨?_, ?_, ?_, ?_, ?_, ?_, ?_, ?_, ?_, ?_, ?_, ?_, ?_, ?_, ?_⟩
  · intro f p w
    exact endpoint_outcome (App.load_data_body f p) w
  · intro f p w
    exact endpoint_outcome (App.export_data_body f p) w
  · intro f p w
    exact endpoint_outcome (App.export_connectorx_body f p) w
  · intro f data w
    exact endpoint_outcome (App.copy_tablex_body f data) w
  · intro f p w
    exact endpoint_outcome (App.export_pgeon_body f p) w
  · intro f w
    exact endpoint_outcome (App.generate_test_data_body f) w
  · intro f p w
    exact endpoint_outcome (Python.load_data_body f p) w
  · intro f p w
    exact endpoint_outcome (Python.export_data_body f p) w
  · intro f p w
    exact endpoint_outcome (Python.export_connectorx_body f p) w
  · intro f data w
    exact endpoint_outcome (Python.copy_tablex_body f data) w
  · intro f p w
    exact endpoint_outcome (Python.export_pgeon_body f p) w
  · intro f w
    exact endpoint_outcome (Python.generate_test_data_body f) w
  · intro f data w
    exact rollbackCatch_outcome (Python.copy_table_body f data) "target" w
  · intro f data w conn hC
    have heq : App.copy_table f data =
        tryCatchE (App.copy_table_body f conn data) (fun e => do
          emit (.rollback conn.label)
          throwE (.httpExc 500 (strExc e))) := by
      unfold App.copy_table
      rw [hC]
    unfold conv500rb
    rw [heq]
    exact rollbackCatch_outcome (App.copy_table_body f conn data)
      conn.label w
  · intro f data w h1 h2
    exact (app_copy_table_unbound h1 h2).2

/-- C2 witness: the valid-database conjunct at the concrete PostgreSQL
copy request. -/
theorem C2_witness :
    conv500rb (App.copy_table noFaults goodCopyReq)
      (App.copy_table_body noFaults .postgres goodCopyReq) "postgres"
      wApp :=
  C2_error_conversion.2.2.2.2.2.2.2.2.2.2.2.2.2.1 noFaults goodCopyReq
    wApp App.DbId.postgres rfl

/-- C1 counterexample: a concrete successful `src/python`
`/export-data/` request returns a metadata dictionary produced by that
app's own `generate_metadata` — a `fields` list — which does not even
contain a `num_rows` key, so the response body is not the
`num_rows`/`num_columns`/`schema` dictionary the claim requires. -/
theorem C1_counterexample :
    (runHandler (Python.export_data noFaults pyExportReq) wPy).2.2 =
      .ok { status := "Table exported to PARQUET from SOURCE",
            metadata := some (Python.generate_metadata tblA.schema) } ∧
    ¬ claimedMetadataShape tblA (Python.generate_metadata tblA.schema) :=
  ⟨rfl, fun h => Option.noConfusion h.1⟩

/-- C1 (amended): in `src/app.py`, every data-moving endpoint that
completes successfully returns metadata equal to
`generate_metadata` of the Arrow table it moved, and that dictionary
has exactly the claimed `num_rows`/`num_columns`/`schema` shape.  In
`src/python`, the handlers call the app-local `generate_metadata`
instead, so a successful response carries the
`fields`-list dictionary built from the moved data's schema (no row or
column counts). -/
theorem C1_response_metadata :
    (∀ t : ArrowTable,
      claimedMetadataShape t (App.generate_metadata t)) ∧
    (∀ (f : Faults) (p : App.LoadDataRequest) (w w' : App.World)
      (evs : List Event) (r : App.Resp),
      runHandler (App.load_data f p) w = (w', evs, .ok r) →
      ∃ t : ArrowTable, r.metadata = some (App.generate_metadata t) ∧
        ∃ conn : App.DbId, Event.ingest conn.label p.table_name t ∈ evs) ∧
    (∀ (f : Faults) (p : App.ExportDataRequest) (w w' : App.World)
      (evs : List Event) (r : App.Resp),
      runHandler (App.export_data f p) w = (w', evs, .ok r) →
      ∃ (conn : App.DbId) (t : ArrowTable),
        App.get_connection p.database = .ok conn ∧
        dbLookup (w.getDB conn) p.table_name = some t ∧
        r.metadata = some (App.generate_metadata t)) ∧
    (∀ (f : Faults) (p : App.ExportDataRequest) (w w' : App.World)
      (evs : List Event) (r : App.Resp),
      runHandler (App.export_connectorx f p) w = (w', evs, .ok r) →
      ∃ (conn : App.DbId) (t : ArrowTable),
        dbLookup (w.getDB conn) p.table_name = some t ∧
        r.metadata = some (App.generate_metadata t)) ∧
    (∀ (f : Faults) (data : App.CopyTableRequest) (w w' : App.World)
      (evs : List Event) (r : App.Resp),
      runHandler (App.copy_table f data) w = (w', evs, .ok r) →
      ∃ (conn : App.DbId) (t : ArrowTable),
        App.get_connection data.database = .ok conn ∧
        dbLookup (w.getDB conn) data.source_table = some t ∧
        r.metadata = some (App.generate_metadata t) ∧
        Event.ingest conn.label data.target_table t ∈ evs) ∧
    (∀ (f : Faults) (data : App.CopyTableRequest) (w w' : App.World)
      (evs : List Event) (r : App.Resp),
      runHandler (App.copy_tablex f data) w = (w', evs, .ok r) →
      ∃ (srcConn conn : App.DbId) (t : ArrowTable),
        dbLookup (w.getDB srcConn) data.source_table = some t ∧
        App.get_connection data.database = .ok conn ∧
        r.metadata = some (App.generate_metadata t) ∧
        Event.ingest conn.label data.target_table t ∈ evs) ∧
    (∀ (f : Faults) (p : App.ExportDataRequest) (w w' : App.World)
      (evs : List Event) (r : App.Resp),
      runHandler (App.export_pgeon f p) w = (w', evs, .ok r) →
      ∃ t : ArrowTable, dbLookup w.pg p.table_name = some t ∧
        r.metadata = some (App.generate_metadata t)) ∧
    (∀ (f : Faults) (p : Python.LoadDataRequest) (w w' : Python.World)
      (evs : List Event) (r : Python.Resp),
      runHandler (Python.load_data f p) w = (w', evs, .ok r) →
      ∃ (role : Python.Role) (entry : FileEntry),
        r.metadata = some (Python.generate_metadata entry.table.schema) ∧
        Event.ingest role.label p.table_name entry.table ∈ evs) ∧
    (∀ (f : Faults) (p : Python.ExportDataRequest) (w w' : Python.World)
      (evs : List Event) (r : Python.Resp),
      runHandler (Python.export_data f p) w = (w', evs, .ok r) →
      ∃ (role : Python.Role) (t : ArrowTable),
        Python.get_connection p.database_role = .ok role ∧
        dbLookup (w.getDB role) p.table_name = some t ∧
        r.metadata = some (Python.generate_metadata t.schema)) ∧
    (∀ (f : Faults) (p : Python.ExportDataRequest) (w w' : Python.World)
      (evs : List Event) (r : Python.Resp),
      runHandler (Python.export_connectorx f p) w = (w', evs, .ok r) →
      ∃ (role : Python.Role) (t : ArrowTable),
        dbLookup (w.getDB role) p.table_name = some t ∧
        r.metadata = some (Python.generate_metadata t.schema)) ∧
    (∀ (f : Faults) (data : Python.CopyTableRequest) (w w' : Python.World)
      (evs : List Event) (r : Python.Resp),
      runHandler (Python.copy_table f data) w = (w', evs, .ok r) →
      ∃ t : ArrowTable, dbLookup w.sourceDB data.source_table = some t ∧
        r.metadata = some (Python.generate_metadata t.schema) ∧
        Event.ingest "target" data.target_table t ∈ evs) ∧
    (∀ (f : Faults) (data : Python.CopyTableRequest) (w w' : Python.World)
      (evs : List Event) (r : Python.Resp),
      runHandler (Python.copy_tablex f data) w = (w', evs, .ok r) →
      ∃ t : ArrowTable, dbLookup w.sourceDB data.source_table = some t ∧
        r.metadata = some (Python.generate_metadata t.schema) ∧
        Event.ingest "target" data.target_table t ∈ evs) ∧
    (∀ (f : Faults) (p : Python.ExportDataRequest) (w w' : Python.World)
      (evs : List Event) (r : Python.Resp),
      runHandler (Python.export_pgeon f p) w = (w', evs, .ok r) →
      ∃ t : ArrowTable, dbLookup w.sourceDB p.table_name = some t ∧
        r.metadata = some (Python.generate_metadata t.schema)) :=
  ⟨fun t => ⟨rfl, rfl, rfl⟩,
   fun _ _ _ _ _ _ h => app_load_data_metadata h,
   fun _ _ _ _ _ _ h => app_export_data_metadata h,
   fun _ _ _ _ _ _ h => app_export_connectorx_metadata h,
   fun _ _ _ _ _ _ h => app_copy_table_metadata h,
   fun _ _ _ _ _ _ h => app_copy_tablex_metadata h,
   fun _ _ _ _ _ _ h => app_export_pgeon_metadata h,
   fun _ _ _ _ _ _ h => py_load_data_metadata h,
   fun _ _ _ _ _ _ h => py_export_data_metadata h,
   fun _ _ _ _ _ _ h => py_export_connectorx_metadata h,
   fun _ _ _ _ _ _ h => py_copy_table_metadata h,
   fun _ _ _ _ _ _ h => py_copy_tablex_metadata h,
   fun _ _ _ _ _ _ h => py_export_pgeon_metadata h⟩

/-- C1 witness: the `src/app.py` export conjunct and the `src/python`
export conjunct instantiated on concrete successful runs. -/
theorem C1_witness :
    (∃ (conn : App.DbId) (t : ArrowTable),
      App.get_connection appExportReq.database = .ok conn ∧
      dbLookup (wApp.getDB conn) appExportReq.table_name = some t ∧
      (some (App.generate_metadata tblA) : Option JVal) =
        some (App.generate_metadata t)) ∧
    (∃ (role : Python.Role) (t : ArrowTable),
      Python.get_connection pyExportReq.database_role = .ok role ∧
      dbLookup (wPy.getDB role) pyExportReq.table_name = some t ∧
      (some (Python.generate_metadata tblA.schema) : Option JVal) =
        some (Python.generate_metadata t.schema)) :=
  ⟨C1_response_metadata.2.2.1 noFaults appExportReq wApp
      { wApp with fs := fsStore wApp.fs (pathJoin wApp.baseDir "out.parquet") ⟨"parquet", tblA⟩ }
      [.fileWrite (pathJoin wApp.baseDir "out.parquet") "parquet" tblA]
      { status := "Table exported to PARQUET from POSTGRES",
        metadata := some (App.generate_metadata tblA) } rfl,
   C1_response_metadata.2.2.2.2.2.2.2.2.1 noFaults pyExportReq wPy
      { wPy with fs := fsStore wPy.fs (pathJoin wPy.baseDir "out.parquet") ⟨"parquet", tblA⟩ }
      [.fileWrite (pathJoin wPy.baseDir "out.parquet") "parquet" tblA]
      { status := "Table exported to PARQUET from SOURCE",
        metadata := some (Python.generate_metadata tblA.schema) } rfl⟩
